import Mathlib

/-!
Verification development for the KoboToolbox MCP server
(`src/kobo_mcp/server.py`).

The server is a single Python module exposing nine MCP tool operations.
Each operation is a pure function of its arguments, the process-wide
configuration (`KOBO_API_TOKEN`, `KOBO_SERVER`) and the JSON bodies of the
HTTP responses it receives, plus a trace of the HTTP requests it issues.
We embed each operation as a Lean function from its arguments, the token,
and an environment record holding the (already JSON-decoded) response
bodies, to a pair of
  * the result: `Except PyError String` (`Except.error` models a raised
    Python exception, `Except.ok` the returned string), and
  * the list of HTTP requests issued, in order.

Modeling notes, applying throughout:
  * All environment responses model the decoded JSON body of a 2xx
    response; `response.raise_for_status()` failures (non-2xx) are outside
    the modeled environments, as no claim concerns them.
  * Python `dict.get` on a non-dict raises `AttributeError`; the embedding
    returns the default instead.  Well-formedness predicates (`*.wf`) on
    the environments confine theorems to the dict-shaped responses on
    which the embedding agrees with the source.
  * `time.sleep` / `asyncio.sleep` and local-filesystem effects
    (`os.makedirs`, writing the downloaded file) are not observable in the
    result or the request trace and are not modeled.
-/

/- JSON values, as produced by `response.json()` and consumed by
`json.dumps`.  Arrays and objects carry their own list types so that all
recursions are structural (kernel-reducible).  Object fields are kept in
insertion order, as Python dicts do. -/
mutual
inductive JsonVal where
  | null
  | bool (b : Bool)
  | num (i : Int)
  | str (s : String)
  | arr (xs : JsonArr)
  | obj (ps : JsonObj)
deriving DecidableEq
inductive JsonArr where
  | nil
  | cons (hd : JsonVal) (tl : JsonArr)
deriving DecidableEq
inductive JsonObj where
  | nil
  | cons (k : String) (v : JsonVal) (tl : JsonObj)
deriving DecidableEq
end

/-- Build an object field list from an ordinary Lean list. -/
def JsonObj.ofList : List (String × JsonVal) → JsonObj
  | [] => .nil
  | (k, v) :: t => .cons k v (JsonObj.ofList t)

/-- Build an array cell list from an ordinary Lean list. -/
def JsonArr.ofList : List JsonVal → JsonArr
  | [] => .nil
  | v :: t => .cons v (JsonArr.ofList t)

/-- View an object field list as an ordinary Lean list (for specs). -/
def JsonObj.toList : JsonObj → List (String × JsonVal)
  | .nil => []
  | .cons k v t => (k, v) :: JsonObj.toList t

/-- View an array cell list as an ordinary Lean list (for specs). -/
def JsonArr.toList : JsonArr → List JsonVal
  | .nil => []
  | .cons v t => v :: JsonArr.toList t

/-- First binding of a key in an object, like indexing a Python dict
(whose keys are unique, so "first" is immaterial). -/
def JsonObj.lookup : JsonObj → String → Option JsonVal
  | .nil, _ => none
  | .cons k v t, key => if k = key then some v else JsonObj.lookup t key

/-- Python `d.get(key, default)` on a dict.  On a non-dict Python raises
`AttributeError`; the embedding returns the default (see module notes). -/
def JsonVal.getD (j : JsonVal) (k : String) (dflt : JsonVal) : JsonVal :=
  match j with
  | .obj ps => (ps.lookup k).getD dflt
  | _ => dflt

/-- Python `d.get(key)` (default `None`, i.e. JSON null). -/
def JsonVal.get (j : JsonVal) (k : String) : JsonVal := j.getD k .null

/-- Field lookup without a default, for spec statements. -/
def JsonVal.look (j : JsonVal) (k : String) : Option JsonVal :=
  match j with
  | .obj ps => ps.lookup k
  | _ => none

/-- Python truthiness of a JSON value (`None`, `False`, `0`, `""`, `[]`,
`{}` are falsy). -/
def JsonVal.falsy : JsonVal → Bool
  | .null => true
  | .bool b => !b
  | .num i => i == 0
  | .str s => s == ""
  | .arr .nil => true
  | .arr _ => false
  | .obj .nil => true
  | .obj _ => false

/-- Python `a or b`: `a` when truthy, else `b`. -/
def pyOr (a b : JsonVal) : JsonVal := if a.falsy then b else a

/-- Is this value a JSON object (Python dict)? -/
def JsonVal.isObj : JsonVal → Prop
  | .obj _ => True
  | _ => False

instance (j : JsonVal) : Decidable j.isObj := by
  cases j <;> simp [JsonVal.isObj] <;> infer_instance

/- ## Decimal and string rendering (Python `str` / `json.dumps`) -/

/-- Decimal digits of a natural number, most significant first; the first
argument is structural fuel (`n` itself always suffices). -/
def natDigits : Nat → Nat → List Char
  | 0, _ => []
  | _ + 1, 0 => []
  | fuel + 1, n + 1 =>
    natDigits fuel ((n + 1) / 10) ++ [Char.ofNat (48 + (n + 1) % 10)]

/-- Python `str` of a nonnegative integer. -/
def natToString (n : Nat) : String := if n = 0 then "0" else ⟨natDigits n n⟩

/-- Python `str` of an integer. -/
def intToString : Int → String
  | .ofNat n => natToString n
  | .negSucc n => "-" ++ natToString (n + 1)

/-- Lower-case hexadecimal digit. -/
def hexDigit (k : Nat) : Char :=
  if k < 10 then Char.ofNat (48 + k) else Char.ofNat (87 + k)

/-- Four-digit lower-case hexadecimal rendering, as in `\uXXXX`. -/
def hex4 (n : Nat) : String :=
  ⟨[hexDigit (n / 4096 % 16), hexDigit (n / 256 % 16),
    hexDigit (n / 16 % 16), hexDigit (n % 16)]⟩

/-- Escape of one character inside a JSON string literal, following
`json.dumps` with its default `ensure_ascii=True` (code points outside
`0x20`–`0x7e` become `\uXXXX`, with surrogate pairs above `0xffff`). -/
def jsonEscapeChar (c : Char) : String :=
  if c = '"' then "\\\""
  else if c = '\\' then "\\\\"
  else if c = '\n' then "\\n"
  else if c = '\r' then "\\r"
  else if c = '\t' then "\\t"
  else if c = '\x08' then "\\b"
  else if c = '\x0c' then "\\f"
  else if c.val < 0x20 || 0x7e < c.val then
    if c.val < 0x10000 then "\\u" ++ hex4 c.toNat
    else
      "\\u" ++ hex4 (0xd800 + (c.toNat - 0x10000) / 0x400) ++
      "\\u" ++ hex4 (0xdc00 + (c.toNat - 0x10000) % 0x400)
  else ⟨[c]⟩

/-- JSON string literal (quotes plus escapes), as `json.dumps` renders a
Python `str`. -/
def jsonQuote (s : String) : String :=
  "\"" ++ (s.data.map jsonEscapeChar).foldl (· ++ ·) "" ++ "\""

/-- Run of spaces used for indentation. -/
def pad (n : Nat) : String := ⟨List.replicate n ' '⟩

/- Serialization of JSON values as Python `json.dumps` produces it:
with `ind = none` the compact default (item separator `", "`, key
separator `": "`), with `ind = some w` the `indent=w` layout (items one
per line, item separator `","` plus newline, empty containers stay
`"\x7b\x7d"`/`"[]"`).  `d` is the current nesting depth. -/
mutual
def JsonVal.dumpsAt : Option Nat → Nat → JsonVal → String
  | _, _, .null => "null"
  | _, _, .bool true => "true"
  | _, _, .bool false => "false"
  | _, _, .num i => intToString i
  | _, _, .str s => jsonQuote s
  | ind, d, .arr xs => JsonArr.dumpsArr ind d xs
  | ind, d, .obj ps => JsonObj.dumpsObj ind d ps
def JsonArr.dumpsArr : Option Nat → Nat → JsonArr → String
  | _, _, .nil => "[]"
  | none, d, .cons h t =>
    "[" ++ JsonVal.dumpsAt none d h ++ JsonArr.dumpsRest none d t ++ "]"
  | some w, d, .cons h t =>
    "[\n" ++ pad (w * (d + 1)) ++ JsonVal.dumpsAt (some w) (d + 1) h ++
    JsonArr.dumpsRest (some w) (d + 1) t ++ "\n" ++ pad (w * d) ++ "]"
def JsonArr.dumpsRest : Option Nat → Nat → JsonArr → String
  | _, _, .nil => ""
  | none, d, .cons h t =>
    ", " ++ JsonVal.dumpsAt none d h ++ JsonArr.dumpsRest none d t
  | some w, d, .cons h t =>
    ",\n" ++ pad (w * d) ++ JsonVal.dumpsAt (some w) d h ++
    JsonArr.dumpsRest (some w) d t
def JsonObj.dumpsObj : Option Nat → Nat → JsonObj → String
  | _, _, .nil => "\x7b\x7d"
  | none, d, .cons k v t =>
    "\x7b" ++ jsonQuote k ++ ": " ++ JsonVal.dumpsAt none d v ++
    JsonObj.dumpsRest none d t ++ "\x7d"
  | some w, d, .cons k v t =>
    "\x7b\n" ++ pad (w * (d + 1)) ++ jsonQuote k ++ ": " ++
    JsonVal.dumpsAt (some w) (d + 1) v ++
    JsonObj.dumpsRest (some w) (d + 1) t ++ "\n" ++ pad (w * d) ++ "\x7d"
def JsonObj.dumpsRest : Option Nat → Nat → JsonObj → String
  | _, _, .nil => ""
  | none, d, .cons k v t =>
    ", " ++ jsonQuote k ++ ": " ++ JsonVal.dumpsAt none d v ++
    JsonObj.dumpsRest none d t
  | some w, d, .cons k v t =>
    ",\n" ++ pad (w * d) ++ jsonQuote k ++ ": " ++
    JsonVal.dumpsAt (some w) d v ++ JsonObj.dumpsRest (some w) d t
end

/-- Python `json.dumps(v, indent=2)`, as used on every output of the
server except three error branches. -/
def dumps2 (v : JsonVal) : String := JsonVal.dumpsAt (some 2) 0 v

/-- Python `json.dumps(v)` (compact default layout). -/
def dumpsC (v : JsonVal) : String := JsonVal.dumpsAt none 0 v

example : dumpsC (JsonVal.obj (JsonObj.ofList
    [("error", JsonVal.str "x"), ("n", JsonVal.num (-12))])) =
    "\x7b\"error\": \"x\", \"n\": -12\x7d" := by decide

example : dumps2 (JsonVal.obj (JsonObj.ofList
    [("status", JsonVal.str "error"), ("message", JsonVal.obj JsonObj.nil)])) =
    "\x7b\n  \"status\": \"error\",\n  \"message\": \x7b\x7d\n\x7d" := by decide

example : dumps2 (JsonVal.arr (JsonArr.ofList
    [JsonVal.num 1, JsonVal.obj (JsonObj.ofList [("a", JsonVal.bool true)])])) =
    "[\n  1,\n  \x7b\n    \"a\": true\n  \x7d\n]" := by decide

/- ## Python string helpers used by the server -/

/-- Python whitespace as recognized by `str.strip()`: the full set CPython
accepts (`Py_UNICODE_ISSPACE`) — ASCII whitespace `\x09`-`\x0d` and
`\x20`, the separators `\x1c`-`\x1f`, next line `\x85`, no-break space
`\xa0`, Ogham space `\x1680`, the `\x2000`-`\x200a` spaces, line and
paragraph separators `\x2028`/`\x2029`, narrow no-break space `\x202f`,
medium mathematical space `\x205f`, and ideographic space `\x3000`. -/
def pySpace (c : Char) : Bool :=
  let n := c.toNat
  (0x09 ≤ n && n ≤ 0x0d) || n == 0x20 || (0x1c ≤ n && n ≤ 0x1f) ||
  n == 0x85 || n == 0xa0 || n == 0x1680 ||
  (0x2000 ≤ n && n ≤ 0x200a) || n == 0x2028 || n == 0x2029 ||
  n == 0x202f || n == 0x205f || n == 0x3000

/-- Python `s.strip()`: remove leading and trailing whitespace. -/
def pyStrip (s : String) : String :=
  ⟨((s.data.dropWhile pySpace).reverse.dropWhile pySpace).reverse⟩

/-- Python `s.rstrip("/")`: remove all trailing slashes. -/
def rstripSlashes (s : String) : String :=
  ⟨(s.data.reverse.dropWhile (· = '/')).reverse⟩

/-- Python `s.lower()` (ASCII letters; the four topic keys are ASCII). -/
def asciiLower (s : String) : String := ⟨s.data.map Char.toLower⟩

/-- Python `os.path.basename`: the part after the last `/`. -/
def basename (p : String) : String :=
  ⟨p.data.foldl (fun acc c => if c = '/' then [] else acc ++ [c]) []⟩

/-- Index of the last `.` in a character list, if any. -/
def lastDotIdx (cs : List Char) : Option Nat :=
  match cs.reverse.findIdx? (· = '.') with
  | none => none
  | some k => some (cs.length - 1 - k)

/-- Root part of Python `os.path.splitext` applied to a plain file name
(no separators): cut at the last dot, unless every character before that
dot is itself a dot (so `.bashrc` keeps its name). -/
def splitextRoot (b : String) : String :=
  match lastDotIdx b.data with
  | none => b
  | some i =>
    if (b.data.take i).any (fun c => c ≠ '.') then ⟨b.data.take i⟩ else b

/-- The server's default form name: `os.path.splitext(os.path.basename(p))[0]`. -/
def stemOf (p : String) : String := splitextRoot (basename p)

/-- Python f-string interpolation of a decoded JSON value, as used when a
response field is spliced into a URL.  Scalars are exact (`str(None)` is
`"None"`, booleans capitalize); containers would render via Python `repr`,
which no modeled scenario exercises. -/
def pyFStr : JsonVal → String
  | .null => "None"
  | .bool true => "True"
  | .bool false => "False"
  | .num i => intToString i
  | .str s => s
  | .arr _ => "<list>"
  | .obj _ => "<dict>"

/- ## Configuration, errors, requests -/

/-- The base URL (`KOBO_SERVER` environment variable), modeled at its
documented default, which no claim varies. -/
def KOBO_SERVER : String := "https://kf.kobotoolbox.org"

/-- A raised Python exception. -/
inductive PyError where
  | valueError (msg : String)
deriving DecidableEq

deriving instance DecidableEq for Except

/-- One HTTP request issued by the server, in the order issued.  Bodies
record the JSON payload (`json=`) or the multipart upload's file name and
form fields (`files=`/`data=`); query parameters are recorded as the
string pairs httpx sends. -/
inductive Request where
  | get (url : String) (params : List (String × String))
  | post (url : String) (body : JsonVal)
  | postMultipart (url : String) (fileName : String) (data : List (String × String))
  | patch (url : String) (body : JsonVal)
deriving DecidableEq

/-- The result of one tool invocation: the returned string (or the raised
exception) together with the HTTP requests issued. -/
def ToolRun := Except PyError String × List Request

/-- Source `get_headers`: raises `ValueError` when `KOBO_API_TOKEN` is
unset or empty (Python `if not KOBO_API_TOKEN`), else the authorization
header.  The token is a parameter of each embedded operation, standing
for the process-wide `KOBO_API_TOKEN`. -/
def get_headers (tok : String) : Except PyError (List (String × String)) :=
  if tok = "" then
    .error (.valueError "KOBO_API_TOKEN environment variable is not set")
  else .ok [("Authorization", "Token " ++ tok)]

/-- Source `format_asset`: shape one asset dict for display. -/
def format_asset (asset : JsonObj) : JsonObj :=
  JsonObj.ofList
    [("uid", (JsonVal.obj asset).get "uid"),
     ("name", (JsonVal.obj asset).get "name"),
     ("asset_type", (JsonVal.obj asset).get "asset_type"),
     ("deployment_status", (JsonVal.obj asset).get "deployment_status"),
     ("submission_count",
      (JsonVal.obj asset).getD "deployment__submission_count" (JsonVal.num 0)),
     ("date_created", (JsonVal.obj asset).get "date_created"),
     ("date_modified", (JsonVal.obj asset).get "date_modified"),
     ("owner", (JsonVal.obj asset).get "owner__username")]
def workflowOverview : String :=
  "KoboToolbox MCP Server — Tool & Workflow Reference\n" ++
  "\n" ++
  "TOOLS:\n" ++
  "  info          — Show this help. Use topic=\"translate\", \"deploy\", or \"data\" for details.\n" ++
  "  list_forms    — List all forms/surveys. Returns uid, name, status, submission count.\n" ++
  "  get_form      — Get a form\x27s JSON structure (questions, choices, settings).\n" ++
  "  export_form   — Download a form as an XLSForm (.xlsx) file for editing.\n" ++
  "  deploy_form   — Upload and deploy a new XLSForm (.xlsx).\n" ++
  "  replace_form  — Replace an existing form\x27s definition (preserves uid & submissions).\n" ++
  "  get_submissions — Fetch submission data with pagination and filtering.\n" ++
  "  export_data   — Export submission data as CSV or XLS.\n" ++
  "\n" ++
  "WORKFLOWS (use info with topic for step-by-step):\n" ++
  "  translate — Add translations to an existing form\n" ++
  "  deploy    — Create and deploy a new form from an XLSForm\n" ++
  "  data      — Retrieve and export submission data"

def workflowTranslate : String :=
  "Workflow: Translate an Existing Form\n" ++
  "\n" ++
  "STEP 1 — Find the form:\n" ++
  "  list_forms(search=\"My Survey\")\n" ++
  "  → Note the form uid from the results\n" ++
  "\n" ++
  "STEP 2 — Download the XLSForm:\n" ++
  "  export_form(form_uid=\"aBC123xYz\", output_path=\"/path/to/form.xlsx\")\n" ++
  "  → Saves the .xlsx file locally\n" ++
  "\n" ++
  "STEP 3 — Edit the XLSForm to add translations:\n" ++
  "  In both the \"survey\" and \"choices\" sheets, add columns for each language:\n" ++
  "    label::English (en)    | label::French (fr)     | hint::English (en)  | hint::French (fr)\n" ++
  "    What is your name?     | Quel est votre nom?    | Full name           | Nom complet\n" ++
  "    How old are you?       | Quel âge avez-vous?    |                     |\n" ++
  "\n" ++
  "  Important:\n" ++
  "  - The format is: column_type::Language Name (code)\n" ++
  "  - Both survey and choices sheets need translation columns\n" ++
  "  - The \"settings\" sheet can set default_language\n" ++
  "  - Keep the original \"name\" column unchanged (it\x27s the internal field ID)\n" ++
  "\n" ++
  "STEP 4 — Redeploy:\n" ++
  "  replace_form(form_uid=\"aBC123xYz\", file_path=\"/path/to/form_translated.xlsx\")\n" ++
  "  → Updates the live form while preserving all existing submissions\n" ++
  "\n" ++
  "TIPS:\n" ++
  "  - Common language codes: en, fr, es, pt, ar, sw, hi, zh, am\n" ++
  "  - You can add multiple languages at once\n" ++
  "  - Use get_form() to inspect the current JSON structure if needed\n" ++
  "  - The form uid and all submission data are preserved through replace_form"

def workflowDeploy : String :=
  "Workflow: Deploy a New Form\n" ++
  "\n" ++
  "STEP 1 — Prepare an XLSForm (.xlsx) with these sheets:\n" ++
  "  \"survey\" sheet columns:  type, name, label (+ label::Language columns for translations)\n" ++
  "  \"choices\" sheet columns: list_name, name, label (+ label::Language columns)\n" ++
  "  \"settings\" sheet:        form_title, form_id, default_language (optional)\n" ++
  "\n" ++
  "STEP 2 — Deploy:\n" ++
  "  deploy_form(file_path=\"/path/to/survey.xlsx\", form_name=\"My Survey\")\n" ++
  "  → Returns uid, enketo_url (web form link), and management_url\n" ++
  "\n" ++
  "STEP 3 — Verify:\n" ++
  "  get_form(form_uid=\"<uid>\")\n" ++
  "  → Check the form structure is correct\n" ++
  "\n" ++
  "TIPS:\n" ++
  "  - form_name is optional; defaults to the filename without extension\n" ++
  "  - The enketo_url is the shareable web form link for data collection\n" ++
  "  - To update later, use replace_form() (not deploy_form) to keep the same uid"

def workflowData : String :=
  "Workflow: Retrieve and Export Data\n" ++
  "\n" ++
  "OPTION A — Fetch submissions directly (good for small datasets or filtering):\n" ++
  "  get_submissions(form_uid=\"aBC123xYz\", limit=100, start=0)\n" ++
  "  → Returns JSON with submission data\n" ++
  "  → Use query parameter for filtering: query=\x27\x7b\"district\": \"Kampala\"\x7d\x27\n" ++
  "\n" ++
  "OPTION B — Export as CSV/XLS (good for large datasets or analysis):\n" ++
  "  export_data(form_uid=\"aBC123xYz\", export_type=\"csv\")\n" ++
  "  → Returns a download URL for the export file\n" ++
  "\n" ++
  "TIPS:\n" ++
  "  - get_submissions supports pagination via limit/start\n" ++
  "  - export_data supports \"csv\" or \"xls\" format\n" ++
  "  - Set include_labels=True (default) for human-readable column headers\n" ++
  "  - For large forms, export_data is more efficient than paginating through get_submissions"

/-- Source `WORKFLOWS`: the four static help texts, in dict insertion
order. -/
def WORKFLOWS : List (String × String) :=
  [("overview", workflowOverview), ("translate", workflowTranslate),
   ("deploy", workflowDeploy), ("data", workflowData)]

/-- Source tool `info`: static help lookup.  `(topic or "overview")`
falls back on `None` and on the empty string; the key is lowercased and
stripped; an unknown key yields the error line interpolating the original
`topic` argument (`None` renders as `"None"`) and the joined key list. -/
def info (topic : Option String) : String :=
  let t := match topic with
    | some s => if s = "" then "overview" else s
    | none => "overview"
  let key := pyStrip (asciiLower t)
  match WORKFLOWS.lookup key with
  | some text => text
  | none =>
    "Unknown topic: " ++ (match topic with | none => "None" | some s => s) ++
    ". Available topics: " ++ String.intercalate ", " (WORKFLOWS.map Prod.fst)

/- ## The polling loop (inlined in `replace_form` and `export_data`) -/

/-- Outcome of the job-status polling loop. -/
inductive PollResult where
  | complete (d : JsonVal)
  | failed (messages : JsonVal)
  | timeout
deriving DecidableEq

/-- The `for _ in range(ceiling): ... else: ...` status-polling loop that
both `replace_form` (ceiling 60) and `export_data` (ceiling 30) inline,
with the ceiling as structural fuel.  Each iteration issues one GET of the
status URL; a `"complete"` status breaks out, an `"error"` status
short-circuits with the job's `messages` (default `{}`), and exhausting
the range falls through to timeout.  `i` numbers the status responses
consumed so far; `resp i` is the body of the `i`-th status response. -/
def pollLoop (url : String) (resp : Nat → JsonVal) :
    Nat → Nat → PollResult × List Request
  | 0, _ => (.timeout, [])
  | fuel + 1, i =>
    let d := resp i
    if d.get "status" = JsonVal.str "complete" then
      (.complete d, [Request.get url []])
    else if d.get "status" = JsonVal.str "error" then
      (.failed (d.getD "messages" (JsonVal.obj JsonObj.nil)),
       [Request.get url []])
    else
      let rest := pollLoop url resp fuel (i + 1)
      (rest.1, Request.get url [] :: rest.2)

/- ## Tool operations -/

/-- The `{KOBO_SERVER}/api/v2/assets/` collection URL. -/
def assetsUrl : String := KOBO_SERVER ++ "/api/v2/assets/"

/-- The `{KOBO_SERVER}/api/v2/assets/{uid}/` asset URL. -/
def assetUrl (uid : String) : String := assetsUrl ++ uid ++ "/"

/-- Error payload returned (not raised) by `deploy_form` and
`replace_form` when the local file path does not exist. -/
def fileNotFoundPayload (p : String) : JsonVal :=
  JsonVal.obj (JsonObj.ofList [("error", JsonVal.str ("File not found: " ++ p))])

/-- Environment of `list_forms`: the decoded body of its one GET. -/
structure ListFormsEnv where
  resp : JsonVal

/-- Elements of `data.get("results", [])` as a cell list; Python would
fail iterating a non-list, which `wf` predicates exclude. -/
def resultsOf (data : JsonVal) : JsonArr :=
  match data.getD "results" (JsonVal.arr JsonArr.nil) with
  | .arr xs => xs
  | _ => JsonArr.nil

/-- Shape one element of the results list; a non-dict element would raise
in Python (excluded by `wf`). -/
def formatAssetVal : JsonVal → JsonVal
  | .obj ps => .obj (format_asset ps)
  | _ => JsonVal.null

/-- The shaped form list `[format_asset(asset) for asset in results]`. -/
def formatAll : JsonArr → JsonArr
  | .nil => .nil
  | .cons h t => .cons (formatAssetVal h) (formatAll t)

/-- Source tool `list_forms`. -/
def list_forms (search : Option String) (tok : String) (env : ListFormsEnv) :
    Except PyError String × List Request :=
  let params := ("asset_type", "survey") ::
    (match search with
     | some s => if s = "" then [] else [("q", s)]
     | none => [])
  match get_headers tok with
  | .error e => (.error e, [])
  | .ok _ =>
    let forms := formatAll (resultsOf env.resp)
    (.ok (dumps2 (JsonVal.arr forms)), [Request.get assetsUrl params])

/-- Environment of `get_form`: the decoded body of its one GET. -/
structure GetFormEnv where
  resp : JsonVal

/-- Source tool `get_form`. -/
def get_form (form_uid : String) (tok : String) (env : GetFormEnv) :
    Except PyError String × List Request :=
  match get_headers tok with
  | .error e => (.error e, [])
  | .ok _ =>
    let data := env.resp
    let result := JsonVal.obj (JsonObj.ofList
      [("uid", data.get "uid"),
       ("name", data.get "name"),
       ("deployment_status", data.get "deployment_status"),
       ("deployment_links",
        data.getD "deployment__links" (JsonVal.obj JsonObj.nil)),
       ("submission_count",
        data.getD "deployment__submission_count" (JsonVal.num 0)),
       ("date_created", data.get "date_created"),
       ("date_modified", data.get "date_modified"),
       ("owner", data.get "owner__username"),
       ("content", data.get "content")])
    (.ok (dumps2 result), [Request.get (assetUrl form_uid) []])

/-- Environment of `resolve_form`: the decoded body of its one GET. -/
structure ResolveEnv where
  resp : JsonVal

/-- The link dict of one asset: `asset.get("deployment__links", {}) or {}`.
A truthy non-dict value would raise at `.items()` in Python (excluded by
`wf`); falsy values are replaced by `{}` by the `or`. -/
def linksOf (asset : JsonVal) : JsonObj :=
  match asset.getD "deployment__links" (JsonVal.obj JsonObj.nil) with
  | .obj ps => ps
  | _ => JsonObj.nil

/-- The inner loop of `resolve_form`: does some link value (a string, per
the `isinstance` guard) match the normalized target after trailing-slash
stripping? -/
def linksMatch (target : String) : JsonObj → Bool
  | .nil => false
  | .cons _ (JsonVal.str u) t =>
    if rstripSlashes u = target then true else linksMatch target t
  | .cons _ _ t => linksMatch target t

/-- Found payload of `resolve_form`: the matching asset's uid, name and
(post-`or \x7b\x7d`) deployment links. -/
def resolveFoundPayload (a : JsonVal) : JsonVal :=
  JsonVal.obj (JsonObj.ofList
    [("uid", a.get "uid"), ("name", a.get "name"),
     ("deployment_links", JsonVal.obj (linksOf a))])

/-- The outer loop of `resolve_form`: first asset (in results order) with
a matching link, returned as the found payload. -/
def scanAssets (target : String) : JsonArr → Option JsonVal
  | .nil => none
  | .cons a t =>
    if linksMatch target (linksOf a) then some (resolveFoundPayload a)
    else scanAssets target t

/-- Not-found payload of `resolve_form` (serialized compactly: the source
calls `json.dumps` without `indent`). -/
def resolveNotFoundPayload (enketo_url : String) : JsonVal :=
  JsonVal.obj (JsonObj.ofList
    [("error", JsonVal.str ("No form found matching Enketo URL: " ++ enketo_url))])

/-- Source tool `resolve_form`. -/
def resolve_form (enketo_url : String) (tok : String) (env : ResolveEnv) :
    Except PyError String × List Request :=
  let target := rstripSlashes (pyStrip enketo_url)
  match get_headers tok with
  | .error e => (.error e, [])
  | .ok _ =>
    let req := Request.get assetsUrl [("asset_type", "survey")]
    match scanAssets target (resultsOf env.resp) with
    | some payload => (.ok (dumps2 payload), [req])
    | none => (.ok (dumpsC (resolveNotFoundPayload enketo_url)), [req])

/-- Environment of `export_form`: the decoded metadata body (the second
GET's binary body is written to disk, not returned, and is not modeled). -/
structure ExportFormEnv where
  metaResp : JsonVal

/-- Source tool `export_form`.  `os.makedirs` on the parent directory is a
local-filesystem effect, not a network request. -/
def export_form (form_uid output_path : String) (tok : String)
    (env : ExportFormEnv) : Except PyError String × List Request :=
  match get_headers tok with
  | .error e => (.error e, [])
  | .ok _ =>
    let meta := env.metaResp
    let payload := JsonVal.obj (JsonObj.ofList
      [("form_uid", JsonVal.str form_uid),
       ("name", meta.get "name"),
       ("output_path", JsonVal.str output_path),
       ("status", JsonVal.str "downloaded")])
    (.ok (dumps2 payload),
     [Request.get (assetUrl form_uid) [],
      Request.get (assetsUrl ++ form_uid ++ ".xls") []])

/-- Environment of `get_submissions`: the decoded body of its one GET. -/
structure SubmissionsEnv where
  resp : JsonVal

/-- Source tool `get_submissions`. -/
def get_submissions (form_uid : String) (limit start : Int)
    (query : Option String) (tok : String) (env : SubmissionsEnv) :
    Except PyError String × List Request :=
  let params := [("limit", intToString limit), ("start", intToString start)] ++
    (match query with
     | some q => if q = "" then [] else [("query", q)]
     | none => [])
  match get_headers tok with
  | .error e => (.error e, [])
  | .ok _ =>
    let data := env.resp
    let payload := JsonVal.obj (JsonObj.ofList
      [("count", data.getD "count" (JsonVal.num 0)),
       ("results", data.getD "results" (JsonVal.arr JsonArr.nil))])
    (.ok (dumps2 payload),
     [Request.get (assetUrl form_uid ++ "data/") params])

/-- Environment of `deploy_form`: local file existence and the decoded
bodies of the asset-creation POST and the final asset GET (the deployment
POST's body is unused by the source). -/
structure DeployEnv where
  fileExists : Bool
  createResp : JsonVal
  assetResp : JsonVal

/-- Success payload of `deploy_form`: the new asset's `uid` from the
creation response, the chosen name, the derived `enketo_url` (first
truthy of the `url`/`offline_url` deployment links), and the constructed
management URL. -/
def deploySuccessPayload (name : String) (env : DeployEnv) : JsonVal :=
  let uid := env.createResp.get "uid"
  let deployment_links :=
    env.assetResp.getD "deployment__links" (JsonVal.obj JsonObj.nil)
  let enketo_url :=
    pyOr (deployment_links.get "url") (deployment_links.get "offline_url")
  JsonVal.obj (JsonObj.ofList
    [("uid", uid),
     ("name", JsonVal.str name),
     ("status", JsonVal.str "deployed"),
     ("enketo_url", enketo_url),
     ("management_url", JsonVal.str (KOBO_SERVER ++ "/#/forms/" ++ pyFStr uid))])

/-- Source tool `deploy_form`. -/
def deploy_form (file_path : String) (form_name : Option String)
    (tok : String) (env : DeployEnv) : Except PyError String × List Request :=
  if env.fileExists = false then
    (.ok (dumpsC (fileNotFoundPayload file_path)), [])
  else
    let name := match form_name with
      | some s => if s = "" then stemOf file_path else s
      | none => stemOf file_path
    match get_headers tok with
    | .error e => (.error e, [])
    | .ok _ =>
      let uid := env.createResp.get "uid"
      let req1 := Request.postMultipart assetsUrl (basename file_path)
        [("name", name), ("asset_type", "survey")]
      let req2 := Request.post (assetsUrl ++ pyFStr uid ++ "/deployment/")
        (JsonVal.obj (JsonObj.ofList [("active", JsonVal.bool true)]))
      let req3 := Request.get (assetsUrl ++ pyFStr uid ++ "/") []
      (.ok (dumps2 (deploySuccessPayload name env)), [req1, req2, req3])

/-- Environment of `replace_form`: local file existence and the decoded
bodies of the import POST, each status GET, the version GET, and the
final asset GET (the deployment PATCH's body is unused by the source). -/
structure ReplaceEnv where
  fileExists : Bool
  importResp : JsonVal
  statusResp : Nat → JsonVal
  versionResp : JsonVal
  assetResp : JsonVal

/-- The import-status URL `replace_form` polls, built from the import
task's `uid`. -/
def replaceStatusUrl (env : ReplaceEnv) : String :=
  KOBO_SERVER ++ "/api/v2/imports/" ++ pyFStr (env.importResp.get "uid") ++ "/"

/-- Job-failure payload of `replace_form` and `export_data`:
`{"status": "error", "message": status_data.get("messages", {})}`. -/
def jobErrorPayload (messages : JsonVal) : JsonVal :=
  JsonVal.obj (JsonObj.ofList
    [("status", JsonVal.str "error"), ("message", messages)])

/-- Timeout payload of `replace_form`. -/
def replaceTimeoutPayload : JsonVal :=
  JsonVal.obj (JsonObj.ofList
    [("status", JsonVal.str "timeout"),
     ("message", JsonVal.str "Import is still processing.")])

/-- Success payload of `replace_form`, built from the final asset GET. -/
def replaceSuccessPayload (form_uid : String) (env : ReplaceEnv) : JsonVal :=
  let asset := env.assetResp
  let deployment_links :=
    asset.getD "deployment__links" (JsonVal.obj JsonObj.nil)
  let enketo_url :=
    pyOr (deployment_links.get "url") (deployment_links.get "offline_url")
  JsonVal.obj (JsonObj.ofList
    [("uid", JsonVal.str form_uid),
     ("name", asset.get "name"),
     ("status", JsonVal.str "redeployed"),
     ("submission_count",
      asset.getD "deployment__submission_count" (JsonVal.num 0)),
     ("enketo_url", enketo_url),
     ("management_url", JsonVal.str (KOBO_SERVER ++ "/#/forms/" ++ form_uid))])

/-- Source tool `replace_form`. -/
def replace_form (form_uid file_path : String) (tok : String)
    (env : ReplaceEnv) : Except PyError String × List Request :=
  if env.fileExists = false then
    (.ok (dumpsC (fileNotFoundPayload file_path)), [])
  else
    match get_headers tok with
    | .error e => (.error e, [])
    | .ok _ =>
      let req1 := Request.postMultipart (KOBO_SERVER ++ "/api/v2/imports/")
        (basename file_path) [("destination", assetUrl form_uid)]
      let poll := pollLoop (replaceStatusUrl env) env.statusResp 60 0
      match poll.1 with
      | .failed msgs =>
        (.ok (dumps2 (jobErrorPayload msgs)), req1 :: poll.2)
      | .timeout =>
        (.ok (dumps2 replaceTimeoutPayload), req1 :: poll.2)
      | .complete _ =>
        let version_id := env.versionResp.get "version_id"
        let reqV := Request.get (assetUrl form_uid) []
        let reqP := Request.patch (assetUrl form_uid ++ "deployment/")
          (JsonVal.obj (JsonObj.ofList
            [("active", JsonVal.bool true), ("version_id", version_id)]))
        let reqA := Request.get (assetUrl form_uid) []
        (.ok (dumps2 (replaceSuccessPayload form_uid env)),
         req1 :: poll.2 ++ [reqV, reqP, reqA])

/-- Environment of `export_data`: the decoded bodies of the export
creation POST and each status GET. -/
structure ExportDataEnv where
  createResp : JsonVal
  statusResp : Nat → JsonVal

/-- The export-status URL `export_data` polls, built from the export
job's `uid`. -/
def exportStatusUrl (form_uid : String) (env : ExportDataEnv) : String :=
  assetUrl form_uid ++ "exports/" ++ pyFStr (env.createResp.get "uid") ++ "/"

/-- Completion payload of `export_data`, carrying the download URL from
the completing status response. -/
def exportCompletePayload (statusData : JsonVal) (export_type : String) :
    JsonVal :=
  JsonVal.obj (JsonObj.ofList
    [("status", JsonVal.str "complete"),
     ("download_url", statusData.get "result"),
     ("type", JsonVal.str export_type)])

/-- Pending (timeout) payload of `export_data`. -/
def exportPendingPayload : JsonVal :=
  JsonVal.obj (JsonObj.ofList
    [("status", JsonVal.str "pending"),
     ("message", JsonVal.str "Export is still processing. Try again later.")])

/-- Source tool `export_data`. -/
def export_data (form_uid export_type : String) (include_labels : Bool)
    (tok : String) (env : ExportDataEnv) : Except PyError String × List Request :=
  let export_settings := JsonVal.obj (JsonObj.ofList
    [("fields_from_all_versions", JsonVal.bool true),
     ("group_sep", JsonVal.str "/"),
     ("hierarchy_in_labels", JsonVal.bool include_labels),
     ("multiple_select", JsonVal.str "both"),
     ("type", JsonVal.str export_type)])
  match get_headers tok with
  | .error e => (.error e, [])
  | .ok _ =>
    let req1 := Request.post (assetUrl form_uid ++ "exports/") export_settings
    let poll := pollLoop (exportStatusUrl form_uid env) env.statusResp 30 0
    match poll.1 with
    | .complete d =>
      (.ok (dumps2 (exportCompletePayload d export_type)), req1 :: poll.2)
    | .failed msgs =>
      (.ok (dumps2 (jobErrorPayload msgs)), req1 :: poll.2)
    | .timeout =>
      (.ok (dumps2 exportPendingPayload), req1 :: poll.2)

/- ## Environment well-formedness (confining to where `dict.get` is exact) -/

/-- The field `k`, when present, holds a dict (so `.get` chains on it do
not raise in Python). -/
def objOrAbsent (j : JsonVal) (k : String) : Prop :=
  match j.look k with
  | none => True
  | some (.obj _) => True
  | some _ => False

/-- The field `k`, when present, holds a falsy value or a dict (so
`asset.get(k, {}) or {}` yields a dict). -/
def objOrFalsyOrAbsent (j : JsonVal) (k : String) : Prop :=
  match j.look k with
  | none => True
  | some v => v.falsy = true ∨ v.isObj

/-- Results field, when present, is a list of dicts. -/
def resultsWf (j : JsonVal) : Prop :=
  match j.look "results" with
  | none => True
  | some (.arr xs) => ∀ a ∈ xs.toList, a.isObj
  | some _ => False

/-- Well-formedness of a `list_forms` environment. -/
def ListFormsEnv.wf (env : ListFormsEnv) : Prop :=
  env.resp.isObj ∧ resultsWf env.resp

/-- Well-formedness of a `get_form` environment. -/
def GetFormEnv.wf (env : GetFormEnv) : Prop := env.resp.isObj

/-- Well-formedness of a `resolve_form` environment: each asset is a dict
whose `deployment__links`, when present, is falsy or a dict. -/
def ResolveEnv.wf (env : ResolveEnv) : Prop :=
  env.resp.isObj ∧
  (match env.resp.look "results" with
   | none => True
   | some (.arr xs) =>
     ∀ a ∈ xs.toList, a.isObj ∧ objOrFalsyOrAbsent a "deployment__links"
   | some _ => False)

/-- Well-formedness of an `export_form` environment. -/
def ExportFormEnv.wf (env : ExportFormEnv) : Prop := env.metaResp.isObj

/-- Well-formedness of a `get_submissions` environment. -/
def SubmissionsEnv.wf (env : SubmissionsEnv) : Prop := env.resp.isObj

/-- Well-formedness of a `deploy_form` environment. -/
def DeployEnv.wf (env : DeployEnv) : Prop :=
  env.createResp.isObj ∧ env.assetResp.isObj ∧
  objOrAbsent env.assetResp "deployment__links"

/-- Well-formedness of a `replace_form` environment. -/
def ReplaceEnv.wf (env : ReplaceEnv) : Prop :=
  env.importResp.isObj ∧ (∀ i, (env.statusResp i).isObj) ∧
  env.versionResp.isObj ∧ env.assetResp.isObj ∧
  objOrAbsent env.assetResp "deployment__links"

/-- Well-formedness of an `export_data` environment. -/
def ExportDataEnv.wf (env : ExportDataEnv) : Prop :=
  env.createResp.isObj ∧ (∀ i, (env.statusResp i).isObj)

/- ## Polling-loop lemmas -/

/-- A status response that keeps the loop polling: neither `"complete"`
nor `"error"`. -/
def nonTerminalStatus (d : JsonVal) : Prop :=
  d.get "status" ≠ JsonVal.str "complete" ∧ d.get "status" ≠ JsonVal.str "error"

theorem pollLoop_nonterminal_step (url : String) (resp : Nat → JsonVal)
    (fuel i : Nat) (h : nonTerminalStatus (resp i)) :
    pollLoop url resp (fuel + 1) i =
      ((pollLoop url resp fuel (i + 1)).1,
       Request.get url [] :: (pollLoop url resp fuel (i + 1)).2) := by
  simp only [pollLoop, if_neg h.1, if_neg h.2]

theorem pollLoop_complete_step (url : String) (resp : Nat → JsonVal)
    (fuel i : Nat) (h : (resp i).get "status" = JsonVal.str "complete") :
    pollLoop url resp (fuel + 1) i =
      (.complete (resp i), [Request.get url []]) := by
  simp only [pollLoop, if_pos h]

theorem pollLoop_error_step (url : String) (resp : Nat → JsonVal)
    (fuel i : Nat) (h : (resp i).get "status" = JsonVal.str "error") :
    pollLoop url resp (fuel + 1) i =
      (.failed ((resp i).getD "messages" (JsonVal.obj JsonObj.nil)),
       [Request.get url []]) := by
  have hne : (resp i).get "status" ≠ JsonVal.str "complete" := by
    rw [h]; decide
  simp only [pollLoop, if_neg hne, if_pos h]

theorem pollLoop_completes (url : String) (resp : Nat → JsonVal) :
    ∀ (N fuel i : Nat), N + 1 ≤ fuel →
    (∀ j, j < N → nonTerminalStatus (resp (i + j))) →
    (resp (i + N)).get "status" = JsonVal.str "complete" →
    pollLoop url resp fuel i =
      (.complete (resp (i + N)),
       List.replicate (N + 1) (Request.get url [])) := by
  intro N
  induction N with
  | zero =>
    intro fuel i hf _ hc
    obtain ⟨f, rfl⟩ : ∃ f, fuel = f + 1 := ⟨fuel - 1, by omega⟩
    rw [pollLoop_complete_step url resp f i (by simpa using hc)]
    simp
  | succ N ih =>
    intro fuel i hf hpre hc
    obtain ⟨f, rfl⟩ : ∃ f, fuel = f + 1 := ⟨fuel - 1, by omega⟩
    rw [pollLoop_nonterminal_step url resp f i (by simpa using hpre 0 (by omega))]
    rw [ih f (i + 1) (by omega)
      (fun j hj => by
        have := hpre (j + 1) (by omega)
        simpa [Nat.add_assoc, Nat.add_comm 1 j] using this)
      (by
        have : i + 1 + N = i + (N + 1) := by omega
        rw [this]; exact hc)]
    have : i + 1 + N = i + (N + 1) := by omega
    rw [this]
    simp [List.replicate_succ]

theorem pollLoop_errors (url : String) (resp : Nat → JsonVal) :
    ∀ (N fuel i : Nat), N + 1 ≤ fuel →
    (∀ j, j < N → nonTerminalStatus (resp (i + j))) →
    (resp (i + N)).get "status" = JsonVal.str "error" →
    pollLoop url resp fuel i =
      (.failed ((resp (i + N)).getD "messages" (JsonVal.obj JsonObj.nil)),
       List.replicate (N + 1) (Request.get url [])) := by
  intro N
  induction N with
  | zero =>
    intro fuel i hf _ he
    obtain ⟨f, rfl⟩ : ∃ f, fuel = f + 1 := ⟨fuel - 1, by omega⟩
    rw [pollLoop_error_step url resp f i (by simpa using he)]
    simp
  | succ N ih =>
    intro fuel i hf hpre he
    obtain ⟨f, rfl⟩ : ∃ f, fuel = f + 1 := ⟨fuel - 1, by omega⟩
    rw [pollLoop_nonterminal_step url resp f i (by simpa using hpre 0 (by omega))]
    rw [ih f (i + 1) (by omega)
      (fun j hj => by
        have := hpre (j + 1) (by omega)
        simpa [Nat.add_assoc, Nat.add_comm 1 j] using this)
      (by
        have : i + 1 + N = i + (N + 1) := by omega
        rw [this]; exact he)]
    have : i + 1 + N = i + (N + 1) := by omega
    rw [this]
    simp [List.replicate_succ]

theorem pollLoop_timesOut (url : String) (resp : Nat → JsonVal) :
    ∀ (fuel i : Nat), (∀ j, j < fuel → nonTerminalStatus (resp (i + j))) →
    pollLoop url resp fuel i =
      (.timeout, List.replicate fuel (Request.get url [])) := by
  intro fuel
  induction fuel with
  | zero => intro i _; simp [pollLoop]
  | succ f ih =>
    intro i hpre
    rw [pollLoop_nonterminal_step url resp f i (by simpa using hpre 0 (by omega))]
    rw [ih (i + 1) (fun j hj => by
      have := hpre (j + 1) (by omega)
      simpa [Nat.add_assoc, Nat.add_comm 1 j] using this)]
    simp [List.replicate_succ]

/-- A literal `"pending"` status keeps the loop polling. -/
theorem pending_nonTerminal (d : JsonVal)
    (h : d.get "status" = JsonVal.str "pending") : nonTerminalStatus d := by
  constructor <;> rw [h] <;> decide

/-- The import request `replace_form` issues first. -/
def replaceImportReq (form_uid file_path : String) : Request :=
  Request.postMultipart (KOBO_SERVER ++ "/api/v2/imports/") (basename file_path)
    [("destination", assetUrl form_uid)]

/-- The redeploy PATCH `replace_form` issues on completion. -/
def replaceDeployPatch (form_uid : String) (env : ReplaceEnv) : Request :=
  Request.patch (assetUrl form_uid ++ "deployment/")
    (JsonVal.obj (JsonObj.ofList
      [("active", JsonVal.bool true),
       ("version_id", env.versionResp.get "version_id")]))

theorem replace_form_complete_run (form_uid file_path tok : String)
    (env : ReplaceEnv) (N : Nat) (hf : env.fileExists = true) (htok : tok ≠ "")
    (hpre : ∀ j, j < N → nonTerminalStatus (env.statusResp j))
    (hN : N + 1 ≤ 60)
    (hc : (env.statusResp N).get "status" = JsonVal.str "complete") :
    replace_form form_uid file_path tok env =
      (.ok (dumps2 (replaceSuccessPayload form_uid env)),
       replaceImportReq form_uid file_path ::
         (List.replicate (N + 1) (Request.get (replaceStatusUrl env) []) ++
          [Request.get (assetUrl form_uid) [],
           replaceDeployPatch form_uid env,
           Request.get (assetUrl form_uid) []])) := by
  have hpoll := pollLoop_completes (replaceStatusUrl env) env.statusResp N 60 0
    hN (fun j hj => by simpa using hpre j hj) (by simpa using hc)
  simp only [replace_form, hf, get_headers, if_neg htok, Bool.true_eq_false,
    if_false, hpoll, replaceImportReq, replaceDeployPatch]
  simp

theorem replace_form_error_run (form_uid file_path tok : String)
    (env : ReplaceEnv) (N : Nat) (hf : env.fileExists = true) (htok : tok ≠ "")
    (hpre : ∀ j, j < N → nonTerminalStatus (env.statusResp j))
    (hN : N + 1 ≤ 60)
    (he : (env.statusResp N).get "status" = JsonVal.str "error") :
    replace_form form_uid file_path tok env =
      (.ok (dumps2 (jobErrorPayload
         ((env.statusResp N).getD "messages" (JsonVal.obj JsonObj.nil)))),
       replaceImportReq form_uid file_path ::
         List.replicate (N + 1) (Request.get (replaceStatusUrl env) [])) := by
  have hpoll := pollLoop_errors (replaceStatusUrl env) env.statusResp N 60 0
    hN (fun j hj => by simpa using hpre j hj) (by simpa using he)
  simp only [replace_form, hf, get_headers, if_neg htok, Bool.true_eq_false,
    if_false, hpoll, replaceImportReq]
  simp

theorem replace_form_timeout_run (form_uid file_path tok : String)
    (env : ReplaceEnv) (hf : env.fileExists = true) (htok : tok ≠ "")
    (hpre : ∀ j, j < 60 → nonTerminalStatus (env.statusResp j)) :
    replace_form form_uid file_path tok env =
      (.ok (dumps2 replaceTimeoutPayload),
       replaceImportReq form_uid file_path ::
         List.replicate 60 (Request.get (replaceStatusUrl env) [])) := by
  have hpoll := pollLoop_timesOut (replaceStatusUrl env) env.statusResp 60 0
    (fun j hj => by simpa using hpre j hj)
  simp only [replace_form, hf, get_headers, if_neg htok, Bool.true_eq_false,
    if_false, hpoll, replaceImportReq]

/-- The export settings body `export_data` POSTs. -/
def exportSettings (export_type : String) (include_labels : Bool) : JsonVal :=
  JsonVal.obj (JsonObj.ofList
    [("fields_from_all_versions", JsonVal.bool true),
     ("group_sep", JsonVal.str "/"),
     ("hierarchy_in_labels", JsonVal.bool include_labels),
     ("multiple_select", JsonVal.str "both"),
     ("type", JsonVal.str export_type)])

theorem export_data_complete_run (form_uid export_type : String)
    (include_labels : Bool) (tok : String) (env : ExportDataEnv) (N : Nat)
    (htok : tok ≠ "")
    (hpre : ∀ j, j < N → nonTerminalStatus (env.statusResp j))
    (hN : N + 1 ≤ 30)
    (hc : (env.statusResp N).get "status" = JsonVal.str "complete") :
    export_data form_uid export_type include_labels tok env =
      (.ok (dumps2 (exportCompletePayload (env.statusResp N) export_type)),
       Request.post (assetUrl form_uid ++ "exports/")
           (exportSettings export_type include_labels) ::
         List.replicate (N + 1)
           (Request.get (exportStatusUrl form_uid env) [])) := by
  have hpoll := pollLoop_completes (exportStatusUrl form_uid env)
    env.statusResp N 30 0 hN (fun j hj => by simpa using hpre j hj)
    (by simpa using hc)
  simp only [export_data, get_headers, if_neg htok, hpoll, exportSettings]
  simp

theorem export_data_error_run (form_uid export_type : String)
    (include_labels : Bool) (tok : String) (env : ExportDataEnv) (N : Nat)
    (htok : tok ≠ "")
    (hpre : ∀ j, j < N → nonTerminalStatus (env.statusResp j))
    (hN : N + 1 ≤ 30)
    (he : (env.statusResp N).get "status" = JsonVal.str "error") :
    export_data form_uid export_type include_labels tok env =
      (.ok (dumps2 (jobErrorPayload
         ((env.statusResp N).getD "messages" (JsonVal.obj JsonObj.nil)))),
       Request.post (assetUrl form_uid ++ "exports/")
           (exportSettings export_type include_labels) ::
         List.replicate (N + 1)
           (Request.get (exportStatusUrl form_uid env) [])) := by
  have hpoll := pollLoop_errors (exportStatusUrl form_uid env)
    env.statusResp N 30 0 hN (fun j hj => by simpa using hpre j hj)
    (by simpa using he)
  simp only [export_data, get_headers, if_neg htok, hpoll, exportSettings]
  simp

theorem export_data_timeout_run (form_uid export_type : String)
    (include_labels : Bool) (tok : String) (env : ExportDataEnv)
    (htok : tok ≠ "")
    (hpre : ∀ j, j < 30 → nonTerminalStatus (env.statusResp j)) :
    export_data form_uid export_type include_labels tok env =
      (.ok (dumps2 exportPendingPayload),
       Request.post (assetUrl form_uid ++ "exports/")
           (exportSettings export_type include_labels) ::
         List.replicate 30 (Request.get (exportStatusUrl form_uid env) [])) := by
  have hpoll := pollLoop_timesOut (exportStatusUrl form_uid env)
    env.statusResp 30 0 (fun j hj => by simpa using hpre j hj)
  simp only [export_data, get_headers, if_neg htok, hpoll, exportSettings]

/- ## Claim C1 -/

/-- C1: for a poll sequence of N `"pending"` status responses followed by
one `"complete"` (with N+1 within the ceiling), the polling loop of
`replace_form` (ceiling 60) and of `export_data` (ceiling 30) returns the
Complete outcome after issuing exactly N+1 status GETs; for an
all-`"pending"` sequence it returns the Timeout outcome after issuing
exactly ceiling-many status GETs.  The request traces are exact, so no
further status requests are issued in either case. -/
theorem C1_polling_counts
    (tok form_uid file_path : String) (envRC envRT : ReplaceEnv) (N : Nat)
    (uid2 etype : String) (labels : Bool) (envEC envET : ExportDataEnv)
    (M : Nat)
    (htok : tok ≠ "")
    (hRCf : envRC.fileExists = true) (hRCw : envRC.wf)
    (hRCp : ∀ j, j < N →
      (envRC.statusResp j).get "status" = JsonVal.str "pending")
    (hRCN : N + 1 ≤ 60)
    (hRCc : (envRC.statusResp N).get "status" = JsonVal.str "complete")
    (hRTf : envRT.fileExists = true) (hRTw : envRT.wf)
    (hRTp : ∀ j, j < 60 →
      (envRT.statusResp j).get "status" = JsonVal.str "pending")
    (hECw : envEC.wf)
    (hECp : ∀ j, j < M →
      (envEC.statusResp j).get "status" = JsonVal.str "pending")
    (hECM : M + 1 ≤ 30)
    (hECc : (envEC.statusResp M).get "status" = JsonVal.str "complete")
    (hETw : envET.wf)
    (hETp : ∀ j, j < 30 →
      (envET.statusResp j).get "status" = JsonVal.str "pending") :
    replace_form form_uid file_path tok envRC =
      (.ok (dumps2 (replaceSuccessPayload form_uid envRC)),
       replaceImportReq form_uid file_path ::
         (List.replicate (N + 1) (Request.get (replaceStatusUrl envRC) []) ++
          [Request.get (assetUrl form_uid) [],
           replaceDeployPatch form_uid envRC,
           Request.get (assetUrl form_uid) []])) ∧
    replace_form form_uid file_path tok envRT =
      (.ok (dumps2 replaceTimeoutPayload),
       replaceImportReq form_uid file_path ::
         List.replicate 60 (Request.get (replaceStatusUrl envRT) [])) ∧
    export_data uid2 etype labels tok envEC =
      (.ok (dumps2 (exportCompletePayload (envEC.statusResp M) etype)),
       Request.post (assetUrl uid2 ++ "exports/") (exportSettings etype labels) ::
         List.replicate (M + 1) (Request.get (exportStatusUrl uid2 envEC) [])) ∧
    export_data uid2 etype labels tok envET =
      (.ok (dumps2 exportPendingPayload),
       Request.post (assetUrl uid2 ++ "exports/") (exportSettings etype labels) ::
         List.replicate 30 (Request.get (exportStatusUrl uid2 envET) [])) := by
  refine ⟨?_, ?_, ?_, ?_⟩
  · exact replace_form_complete_run form_uid file_path tok envRC N hRCf htok
      (fun j hj => pending_nonTerminal _ (hRCp j hj)) hRCN hRCc
  · exact replace_form_timeout_run form_uid file_path tok envRT hRTf htok
      (fun j hj => pending_nonTerminal _ (hRTp j hj))
  · exact export_data_complete_run uid2 etype labels tok envEC M htok
      (fun j hj => pending_nonTerminal _ (hECp j hj)) hECM hECc
  · exact export_data_timeout_run uid2 etype labels tok envET htok
      (fun j hj => pending_nonTerminal _ (hETp j hj))

/-- A minimal status response body `{"status": s}`. -/
def statusObj (s : String) : JsonVal :=
  JsonVal.obj (JsonObj.ofList [("status", JsonVal.str s)])

/-- Concrete environment: import job that completes immediately. -/
def c1EnvRC : ReplaceEnv :=
  { fileExists := true,
    importResp := JsonVal.obj (JsonObj.ofList [("uid", JsonVal.str "iU1")]),
    statusResp := fun _ => statusObj "complete",
    versionResp := JsonVal.obj (JsonObj.ofList [("version_id", JsonVal.str "v1")]),
    assetResp := JsonVal.obj JsonObj.nil }

/-- Concrete environment: import job that never finishes. -/
def c1EnvRT : ReplaceEnv :=
  { c1EnvRC with statusResp := fun _ => statusObj "pending" }

/-- Concrete environment: export job that completes immediately. -/
def c1EnvEC : ExportDataEnv :=
  { createResp := JsonVal.obj (JsonObj.ofList [("uid", JsonVal.str "eU1")]),
    statusResp := fun _ => statusObj "complete" }

/-- Concrete environment: export job that never finishes. -/
def c1EnvET : ExportDataEnv :=
  { c1EnvEC with statusResp := fun _ => statusObj "pending" }

theorem C1_polling_counts_witness :
    replace_form "aB12" "/tmp/f.xlsx" "t" c1EnvRC =
      (.ok (dumps2 (replaceSuccessPayload "aB12" c1EnvRC)),
       replaceImportReq "aB12" "/tmp/f.xlsx" ::
         (List.replicate 1 (Request.get (replaceStatusUrl c1EnvRC) []) ++
          [Request.get (assetUrl "aB12") [],
           replaceDeployPatch "aB12" c1EnvRC,
           Request.get (assetUrl "aB12") []])) ∧
    replace_form "aB12" "/tmp/f.xlsx" "t" c1EnvRT =
      (.ok (dumps2 replaceTimeoutPayload),
       replaceImportReq "aB12" "/tmp/f.xlsx" ::
         List.replicate 60 (Request.get (replaceStatusUrl c1EnvRT) [])) ∧
    export_data "aB12" "csv" true "t" c1EnvEC =
      (.ok (dumps2 (exportCompletePayload (statusObj "complete") "csv")),
       Request.post (assetUrl "aB12" ++ "exports/") (exportSettings "csv" true) ::
         List.replicate 1 (Request.get (exportStatusUrl "aB12" c1EnvEC) [])) ∧
    export_data "aB12" "csv" true "t" c1EnvET =
      (.ok (dumps2 exportPendingPayload),
       Request.post (assetUrl "aB12" ++ "exports/") (exportSettings "csv" true) ::
         List.replicate 30 (Request.get (exportStatusUrl "aB12" c1EnvET) [])) :=
  C1_polling_counts "t" "aB12" "/tmp/f.xlsx" c1EnvRC c1EnvRT 0
    "aB12" "csv" true c1EnvEC c1EnvET 0
    (by decide) rfl
    ⟨trivial, fun i => trivial, trivial, trivial, trivial⟩
    (fun j hj => absurd hj (by omega)) (by decide) (by decide)
    rfl
    ⟨trivial, fun i => trivial, trivial, trivial, trivial⟩
    (fun j _ => rfl)
    ⟨trivial, fun i => trivial⟩
    (fun j hj => absurd hj (by omega)) (by decide) (by decide)
    ⟨trivial, fun i => trivial⟩
    (fun j _ => rfl)

/- ## Claim C2 -/

/-- C2: the first `"error"` status response (at index j, after j
non-terminal responses) makes the polling loop return the Failed outcome
immediately — a structured JSON payload `{"status": "error", "message":
<job messages>}` — after exactly j+1 status GETs, with no further status
requests regardless of the remaining ceiling iterations; in both
`replace_form` and `export_data`. -/
theorem C2_error_short_circuits
    (tok form_uid file_path : String) (envR : ReplaceEnv) (j : Nat)
    (uid2 etype : String) (labels : Bool) (envE : ExportDataEnv) (k : Nat)
    (htok : tok ≠ "")
    (hRf : envR.fileExists = true) (hRw : envR.wf)
    (hj : j < 60)
    (hRpre : ∀ i, i < j → nonTerminalStatus (envR.statusResp i))
    (hRe : (envR.statusResp j).get "status" = JsonVal.str "error")
    (hEw : envE.wf)
    (hk : k < 30)
    (hEpre : ∀ i, i < k → nonTerminalStatus (envE.statusResp i))
    (hEe : (envE.statusResp k).get "status" = JsonVal.str "error") :
    replace_form form_uid file_path tok envR =
      (.ok (dumps2 (jobErrorPayload
         ((envR.statusResp j).getD "messages" (JsonVal.obj JsonObj.nil)))),
       replaceImportReq form_uid file_path ::
         List.replicate (j + 1) (Request.get (replaceStatusUrl envR) [])) ∧
    export_data uid2 etype labels tok envE =
      (.ok (dumps2 (jobErrorPayload
         ((envE.statusResp k).getD "messages" (JsonVal.obj JsonObj.nil)))),
       Request.post (assetUrl uid2 ++ "exports/") (exportSettings etype labels) ::
         List.replicate (k + 1) (Request.get (exportStatusUrl uid2 envE) [])) := by
  constructor
  · exact replace_form_error_run form_uid file_path tok envR j hRf htok
      hRpre (by omega) hRe
  · exact export_data_error_run uid2 etype labels tok envE k htok
      hEpre (by omega) hEe

/-- Concrete environment: import job that errors on the second poll. -/
def c2EnvR : ReplaceEnv :=
  { c1EnvRC with statusResp := fun i =>
      if i = 0 then statusObj "pending"
      else JsonVal.obj (JsonObj.ofList
        [("status", JsonVal.str "error"),
         ("messages", JsonVal.str "bad sheet")]) }

/-- Concrete environment: export job that errors on the first poll. -/
def c2EnvE : ExportDataEnv :=
  { c1EnvEC with statusResp := fun _ =>
      JsonVal.obj (JsonObj.ofList [("status", JsonVal.str "error")]) }

theorem C2_error_short_circuits_witness :
    replace_form "aB12" "/tmp/f.xlsx" "t" c2EnvR =
      (.ok (dumps2 (jobErrorPayload (JsonVal.str "bad sheet"))),
       replaceImportReq "aB12" "/tmp/f.xlsx" ::
         List.replicate 2 (Request.get (replaceStatusUrl c2EnvR) [])) ∧
    export_data "aB12" "csv" true "t" c2EnvE =
      (.ok (dumps2 (jobErrorPayload (JsonVal.obj JsonObj.nil))),
       Request.post (assetUrl "aB12" ++ "exports/") (exportSettings "csv" true) ::
         List.replicate 1 (Request.get (exportStatusUrl "aB12" c2EnvE) [])) :=
  C2_error_short_circuits "t" "aB12" "/tmp/f.xlsx" c2EnvR 1
    "aB12" "csv" true c2EnvE 0
    (by decide) rfl
    ⟨trivial, fun i => by
      by_cases h : i = 0 <;>
        simp [c2EnvR, c1EnvRC, h, statusObj, JsonVal.isObj],
     trivial, trivial, trivial⟩
    (by omega)
    (fun i hi => by
      have : i = 0 := by omega
      subst this
      exact pending_nonTerminal _ (by decide))
    (by decide)
    ⟨trivial, fun i => trivial⟩
    (by omega)
    (fun i hi => absurd hi (by omega))
    (by decide)

/- ## Claim C5 -/

/-- C5: for a nonexistent local file path, `deploy_form` and
`replace_form` each return (not raise) the structured JSON payload
`{"error": "File not found: <path>"}` and issue no network request
whatsoever (the token is arbitrary, even empty). -/
theorem C5_missing_file (file_path form_uid tok tok2 : String)
    (form_name : Option String) (envD : DeployEnv) (envR : ReplaceEnv)
    (hD : envD.fileExists = false) (hR : envR.fileExists = false) :
    deploy_form file_path form_name tok envD =
      (.ok (dumpsC (fileNotFoundPayload file_path)), []) ∧
    replace_form form_uid file_path tok2 envR =
      (.ok (dumpsC (fileNotFoundPayload file_path)), []) ∧
    fileNotFoundPayload file_path =
      JsonVal.obj (JsonObj.ofList
        [("error", JsonVal.str ("File not found: " ++ file_path))]) := by
  refine ⟨?_, ?_, rfl⟩ <;> simp [deploy_form, replace_form, hD, hR]

/-- Concrete `deploy_form` environment with a missing file. -/
def c5EnvD : DeployEnv :=
  { fileExists := false, createResp := JsonVal.null, assetResp := JsonVal.null }

/-- Concrete `replace_form` environment with a missing file. -/
def c5EnvR : ReplaceEnv :=
  { fileExists := false, importResp := JsonVal.null,
    statusResp := fun _ => JsonVal.null,
    versionResp := JsonVal.null, assetResp := JsonVal.null }

theorem C5_missing_file_witness :
    deploy_form "/no/such.xlsx" none "" c5EnvD =
      (.ok (dumpsC (fileNotFoundPayload "/no/such.xlsx")), []) ∧
    replace_form "aB12" "/no/such.xlsx" "" c5EnvR =
      (.ok (dumpsC (fileNotFoundPayload "/no/such.xlsx")), []) ∧
    fileNotFoundPayload "/no/such.xlsx" =
      JsonVal.obj (JsonObj.ofList
        [("error", JsonVal.str ("File not found: " ++ "/no/such.xlsx"))]) :=
  C5_missing_file "/no/such.xlsx" "aB12" "" "" none c5EnvD c5EnvR rfl rfl

/- ## Claim C7 -/

/-- C7: `format_asset` is a total function of the raw asset dict (so it
never throws), its output has exactly the eight documented keys in order
and nothing else, `submission_count` is the upstream
`deployment__submission_count` defaulting to `0` when absent, and every
other field is the corresponding upstream field (`owner` from
`owner__username`) defaulting to `null` when absent. -/
theorem C7_format_asset_fields (asset : JsonObj) :
    (format_asset asset).toList.map Prod.fst =
      ["uid", "name", "asset_type", "deployment_status", "submission_count",
       "date_created", "date_modified", "owner"] ∧
    (format_asset asset).lookup "submission_count" =
      some ((asset.lookup "deployment__submission_count").getD (JsonVal.num 0)) ∧
    (format_asset asset).lookup "uid" =
      some ((asset.lookup "uid").getD JsonVal.null) ∧
    (format_asset asset).lookup "name" =
      some ((asset.lookup "name").getD JsonVal.null) ∧
    (format_asset asset).lookup "asset_type" =
      some ((asset.lookup "asset_type").getD JsonVal.null) ∧
    (format_asset asset).lookup "deployment_status" =
      some ((asset.lookup "deployment_status").getD JsonVal.null) ∧
    (format_asset asset).lookup "date_created" =
      some ((asset.lookup "date_created").getD JsonVal.null) ∧
    (format_asset asset).lookup "date_modified" =
      some ((asset.lookup "date_modified").getD JsonVal.null) ∧
    (format_asset asset).lookup "owner" =
      some ((asset.lookup "owner__username").getD JsonVal.null) :=
  ⟨rfl, rfl, rfl, rfl, rfl, rfl, rfl, rfl, rfl⟩

/- ## Claim C10 -/

/-- C10: `deploy_form` on an existing file with no `form_name` uses the
file's base name with its extension removed (Python
`os.path.splitext(os.path.basename(p))[0]`) as the form's name: that
string is the `name` field of the multipart asset-creation request (the
first request issued) and the `name` field of the returned payload. -/
theorem C10_default_name (file_path tok : String) (env : DeployEnv)
    (hf : env.fileExists = true) (htok : tok ≠ "") (hw : env.wf) :
    deploy_form file_path none tok env =
      (.ok (dumps2 (deploySuccessPayload (stemOf file_path) env)),
       [Request.postMultipart assetsUrl (basename file_path)
          [("name", stemOf file_path), ("asset_type", "survey")],
        Request.post
          (assetsUrl ++ pyFStr (env.createResp.get "uid") ++ "/deployment/")
          (JsonVal.obj (JsonObj.ofList [("active", JsonVal.bool true)])),
        Request.get (assetsUrl ++ pyFStr (env.createResp.get "uid") ++ "/") []]) ∧
    (deploySuccessPayload (stemOf file_path) env).look "name" =
      some (JsonVal.str (stemOf file_path)) ∧
    stemOf file_path = splitextRoot (basename file_path) := by
  refine ⟨?_, rfl, rfl⟩
  simp only [deploy_form, hf, Bool.true_eq_false, if_false, get_headers,
    if_neg htok]

/-- Concrete `deploy_form` environment for the default-name witness. -/
def c10Env : DeployEnv :=
  { fileExists := true,
    createResp := JsonVal.obj (JsonObj.ofList [("uid", JsonVal.str "uNew")]),
    assetResp := JsonVal.obj (JsonObj.ofList
      [("deployment__links",
        JsonVal.obj (JsonObj.ofList [("url", JsonVal.str "https://ee/xyz")]))]) }

theorem C10_default_name_witness :
    stemOf "/data/my survey.v2.xlsx" = "my survey.v2" ∧
    deploy_form "/data/my survey.v2.xlsx" none "t" c10Env =
      (.ok (dumps2 (deploySuccessPayload "my survey.v2" c10Env)),
       [Request.postMultipart assetsUrl "my survey.v2.xlsx"
          [("name", "my survey.v2"), ("asset_type", "survey")],
        Request.post (assetsUrl ++ "uNew/deployment/")
          (JsonVal.obj (JsonObj.ofList [("active", JsonVal.bool true)])),
        Request.get (assetsUrl ++ "uNew/") []]) ∧
    (deploySuccessPayload "my survey.v2" c10Env).look "name" =
      some (JsonVal.str "my survey.v2") := by
  have h := C10_default_name "/data/my survey.v2.xlsx" "t" c10Env rfl
    (by decide) ⟨trivial, trivial, trivial⟩
  exact ⟨by decide, h.1, h.2.1⟩

/- ## Claim C3 -/

/-- Is `needle` a prefix of the second list? -/
def isPrefixChars : List Char → List Char → Bool
  | [], _ => true
  | _ :: _, [] => false
  | n :: ns, h :: hs => n == h && isPrefixChars ns hs

/-- Does `needle` occur contiguously anywhere in the list? -/
def containsSub (needle : List Char) : List Char → Bool
  | [] => isPrefixChars needle []
  | c :: rest => isPrefixChars needle (c :: rest) || containsSub needle rest

/-- Does the string `needle` occur as a substring of `hay`? -/
def strContains (hay needle : String) : Bool := containsSub needle.data hay.data

/-- Concrete `replace_form` environment whose import job errors at once
(with no `messages` field). -/
def c3Env : ReplaceEnv :=
  { fileExists := true,
    importResp := JsonVal.obj (JsonObj.ofList [("uid", JsonVal.str "i1")]),
    statusResp := fun _ => statusObj "error",
    versionResp := JsonVal.obj JsonObj.nil,
    assetResp := JsonVal.obj JsonObj.nil }

/-- C3 fails on the code: when the import job reports `"error"`,
`replace_form "aZq9" ...` returns the payload
`\x7b"status": "error", "message": \x7b\x7d\x7d`, whose JSON text does not
contain the form uid `"aZq9"` at all (so no field carries it either). -/
theorem C3_counterexample :
    (replace_form "aZq9" "/tmp/f.xlsx" "t" c3Env).1 =
      Except.ok "\x7b\n  \"status\": \"error\",\n  \"message\": \x7b\x7d\n\x7d" ∧
    strContains "\x7b\n  \"status\": \"error\",\n  \"message\": \x7b\x7d\n\x7d"
      "aZq9" = false := by
  constructor
  · decide
  · decide

/-- C3 amended: `replace_form` preserves the original `form_uid` in its
output under the Complete outcome — the success payload's `uid` field is
exactly `form_uid` — but under the Failed outcome the payload is
`\x7b"status": "error", "message": <job messages>\x7d`, which has no `uid`
field (and need not mention `form_uid` anywhere, per the
counterexample). -/
theorem C3_uid_preserved_amended
    (form_uid file_path tok : String) (envC envE : ReplaceEnv) (N j : Nat)
    (htok : tok ≠ "")
    (hCf : envC.fileExists = true) (hCw : envC.wf)
    (hCp : ∀ i, i < N → nonTerminalStatus (envC.statusResp i))
    (hCN : N + 1 ≤ 60)
    (hCc : (envC.statusResp N).get "status" = JsonVal.str "complete")
    (hEf : envE.fileExists = true) (hEw : envE.wf)
    (hj : j < 60)
    (hEpre : ∀ i, i < j → nonTerminalStatus (envE.statusResp i))
    (hEe : (envE.statusResp j).get "status" = JsonVal.str "error") :
    (replace_form form_uid file_path tok envC).1 =
      .ok (dumps2 (replaceSuccessPayload form_uid envC)) ∧
    (replaceSuccessPayload form_uid envC).look "uid" =
      some (JsonVal.str form_uid) ∧
    (replace_form form_uid file_path tok envE).1 =
      .ok (dumps2 (jobErrorPayload
        ((envE.statusResp j).getD "messages" (JsonVal.obj JsonObj.nil)))) ∧
    (∀ msgs : JsonVal, (jobErrorPayload msgs).look "uid" = none) := by
  refine ⟨?_, rfl, ?_, fun msgs => rfl⟩
  · rw [replace_form_complete_run form_uid file_path tok envC N hCf htok
      hCp hCN hCc]
  · rw [replace_form_error_run form_uid file_path tok envE j hEf htok
      hEpre (by omega) hEe]

theorem C3_uid_preserved_amended_witness :
    (replace_form "aZq9" "/tmp/f.xlsx" "t" c1EnvRC).1 =
      .ok (dumps2 (replaceSuccessPayload "aZq9" c1EnvRC)) ∧
    (replaceSuccessPayload "aZq9" c1EnvRC).look "uid" =
      some (JsonVal.str "aZq9") ∧
    (replace_form "aZq9" "/tmp/f.xlsx" "t" c3Env).1 =
      .ok (dumps2 (jobErrorPayload (JsonVal.obj JsonObj.nil))) ∧
    (∀ msgs : JsonVal, (jobErrorPayload msgs).look "uid" = none) :=
  C3_uid_preserved_amended "aZq9" "/tmp/f.xlsx" "t" c1EnvRC c3Env 0 0
    (by decide) rfl
    ⟨trivial, fun i => trivial, trivial, trivial, trivial⟩
    (fun i hi => absurd hi (by omega)) (by decide) (by decide)
    rfl ⟨trivial, fun i => trivial, trivial, trivial, trivial⟩
    (by omega) (fun i hi => absurd hi (by omega)) (by decide)

/- ## Claim C6 -/

/-- The configuration error `get_headers` raises on a missing or empty
credential. -/
def missingTokenError : PyError :=
  PyError.valueError "KOBO_API_TOKEN environment variable is not set"

/-- C6 fails on the code as stated: with an empty credential but a
nonexistent file path, `deploy_form` returns the file-not-found payload
as a normal result — no configuration error is raised — because the local
file check precedes the first `get_headers()` call. -/
theorem C6_counterexample :
    deploy_form "/no/such.xlsx" none "" c5EnvD =
      (Except.ok (dumpsC (fileNotFoundPayload "/no/such.xlsx")), []) ∧
    (deploy_form "/no/such.xlsx" none "" c5EnvD).1 ≠
      Except.error missingTokenError := by
  constructor
  · rfl
  · decide

/-- C6 amended: with the credential absent/empty, every operation that
requires authorization raises the configuration `ValueError` before
issuing any network request — except that `deploy_form` and
`replace_form` consult the local file first, so this holds for them when
the file exists (when it does not, they return the file-not-found payload
instead, still with no network request, per the counterexample). -/
theorem C6_missing_token_amended
    (search : Option String) (envL : ListFormsEnv)
    (uidG : String) (envG : GetFormEnv)
    (url : String) (envV : ResolveEnv)
    (uidX outp : String) (envX : ExportFormEnv)
    (uidS : String) (lim st : Int) (q : Option String) (envS : SubmissionsEnv)
    (fpD : String) (fn : Option String) (envD : DeployEnv)
    (uidR fpR : String) (envR : ReplaceEnv)
    (uidE et : String) (lab : Bool) (envE : ExportDataEnv)
    (hD : envD.fileExists = true) (hR : envR.fileExists = true) :
    list_forms search "" envL = (.error missingTokenError, []) ∧
    get_form uidG "" envG = (.error missingTokenError, []) ∧
    resolve_form url "" envV = (.error missingTokenError, []) ∧
    export_form uidX outp "" envX = (.error missingTokenError, []) ∧
    get_submissions uidS lim st q "" envS = (.error missingTokenError, []) ∧
    deploy_form fpD fn "" envD = (.error missingTokenError, []) ∧
    replace_form uidR fpR "" envR = (.error missingTokenError, []) ∧
    export_data uidE et lab "" envE = (.error missingTokenError, []) := by
  refine ⟨?_, ?_, ?_, ?_, ?_, ?_, ?_, ?_⟩ <;>
    simp [list_forms, get_form, resolve_form, export_form, get_submissions,
      deploy_form, replace_form, export_data, get_headers, hD, hR,
      missingTokenError]

/-- Concrete environments for the missing-token witness. -/
def c6EnvL : ListFormsEnv := ⟨JsonVal.null⟩

theorem C6_missing_token_amended_witness :
    list_forms none "" c6EnvL = (.error missingTokenError, []) ∧
    get_form "aB12" "" ⟨JsonVal.null⟩ = (.error missingTokenError, []) ∧
    resolve_form "https://ee/x" "" ⟨JsonVal.null⟩ =
      (.error missingTokenError, []) ∧
    export_form "aB12" "/tmp/o.xlsx" "" ⟨JsonVal.null⟩ =
      (.error missingTokenError, []) ∧
    get_submissions "aB12" 100 0 none "" ⟨JsonVal.null⟩ =
      (.error missingTokenError, []) ∧
    deploy_form "/tmp/f.xlsx" none "" c10Env = (.error missingTokenError, []) ∧
    replace_form "aB12" "/tmp/f.xlsx" "" c1EnvRC =
      (.error missingTokenError, []) ∧
    export_data "aB12" "csv" true "" c1EnvEC =
      (.error missingTokenError, []) :=
  C6_missing_token_amended none c6EnvL "aB12" ⟨JsonVal.null⟩ "https://ee/x"
    ⟨JsonVal.null⟩ "aB12" "/tmp/o.xlsx" ⟨JsonVal.null⟩ "aB12" 100 0 none
    ⟨JsonVal.null⟩ "/tmp/f.xlsx" none c10Env "aB12" "/tmp/f.xlsx" c1EnvRC
    "aB12" "csv" true c1EnvEC rfl rfl

/- ## Claim C9 -/

/-- C9 fails on the code for the empty topic string: `""` names none of
the four topics, yet `info(topic="")` returns the overview help text (the
Python `topic or "overview"` default treats the empty string like a
missing topic), not an error string. -/
theorem C9_counterexample :
    info (some "") = workflowOverview ∧
    info (some "") ≠
      "Unknown topic: " ++ "" ++ ". Available topics: " ++
        "overview, translate, deploy, data" := by
  constructor
  · rfl
  · decide

/-- Lookup in the workflow table misses exactly outside the four keys. -/
theorem workflows_lookup_eq_none (key : String)
    (h : key ∉ ["overview", "translate", "deploy", "data"]) :
    WORKFLOWS.lookup key = none := by
  have h1 : key ≠ "overview" := fun e => h (by simp [e])
  have h2 : key ≠ "translate" := fun e => h (by simp [e])
  have h3 : key ≠ "deploy" := fun e => h (by simp [e])
  have h4 : key ≠ "data" := fun e => h (by simp [e])
  have e1 : (key == "overview") = false := beq_eq_false_iff_ne.mpr h1
  have e2 : (key == "translate") = false := beq_eq_false_iff_ne.mpr h2
  have e3 : (key == "deploy") = false := beq_eq_false_iff_ne.mpr h3
  have e4 : (key == "data") = false := beq_eq_false_iff_ne.mpr h4
  simp [WORKFLOWS, List.lookup, e1, e2, e3, e4]

/-- C9 amended: for every non-empty topic string whose lowercased,
whitespace-stripped form is not one of the four topic keys, `info`
returns the error line enumerating the four valid topic names; `info`
with no topic — and likewise with the empty (falsy) topic string, per the
counterexample — returns the overview help text verbatim. -/
theorem C9_info_amended (s : String) (hs : s ≠ "")
    (h : pyStrip (asciiLower s) ∉ ["overview", "translate", "deploy", "data"]) :
    info (some s) =
      "Unknown topic: " ++ s ++ ". Available topics: " ++
        "overview, translate, deploy, data" ∧
    info none = workflowOverview ∧
    info (some "") = workflowOverview := by
  refine ⟨?_, rfl, rfl⟩
  have hnone := workflows_lookup_eq_none (pyStrip (asciiLower s)) h
  have hic : String.intercalate ", " (WORKFLOWS.map Prod.fst) =
      "overview, translate, deploy, data" := by decide
  simp only [info, if_neg hs, hnone, hic]

theorem C9_info_amended_witness :
    info (some "bogus") =
      "Unknown topic: " ++ "bogus" ++ ". Available topics: " ++
        "overview, translate, deploy, data" ∧
    info none = workflowOverview ∧
    info (some "") = workflowOverview :=
  C9_info_amended "bogus" (by decide) (by decide)

/- ## Claim C4 -/

/-- Structural induction over object field lists alone (the mutual
recursor has multiple motives, which `induction` cannot use). -/
theorem JsonObj.fieldInduction {motive : JsonObj → Prop} (nil : motive .nil)
    (cons : ∀ k v t, motive t → motive (.cons k v t)) : ∀ ps, motive ps
  | .nil => nil
  | .cons k v t => cons k v t (JsonObj.fieldInduction nil cons t)

/-- Structural induction over array cell lists alone. -/
theorem JsonArr.cellInduction {motive : JsonArr → Prop} (nil : motive .nil)
    (cons : ∀ v t, motive t → motive (.cons v t)) : ∀ xs, motive xs
  | .nil => nil
  | .cons v t => cons v t (JsonArr.cellInduction nil cons t)

/-- The inner link loop matches exactly when some string-valued link,
stripped of trailing slashes, equals the target. -/
theorem linksMatch_iff (target : String) : ∀ ps : JsonObj,
    linksMatch target ps = true ↔
      ∃ k u, (k, JsonVal.str u) ∈ ps.toList ∧ rstripSlashes u = target := by
  intro ps
  induction ps using JsonObj.fieldInduction with
  | nil => simp [linksMatch, JsonObj.toList]
  | cons k v t ih =>
    rcases v with _ | b | i | u | xs | ps2
    case str =>
      simp only [linksMatch, JsonObj.toList, List.mem_cons]
      by_cases hu : rstripSlashes u = target
      · simp only [if_pos hu, true_iff]
        exact ⟨k, u, Or.inl rfl, hu⟩
      · simp only [if_neg hu]
        rw [ih]
        constructor
        · rintro ⟨k', u', hm, he⟩; exact ⟨k', u', Or.inr hm, he⟩
        · rintro ⟨k', u', heq | hm, he⟩
          · have h2 := congrArg Prod.snd heq
            injection h2 with h3
            subst h3
            exact absurd he hu
          · exact ⟨k', u', hm, he⟩
    all_goals
      simp only [linksMatch, JsonObj.toList, List.mem_cons]
      rw [ih]
      constructor
      · rintro ⟨k', u', hm, he⟩; exact ⟨k', u', Or.inr hm, he⟩
      · rintro ⟨k', u', heq | hm, he⟩
        · exact absurd (congrArg Prod.snd heq) (by intro h2; cases h2)
        · exact ⟨k', u', hm, he⟩

/-- The asset scan returns the payload of the first matching asset. -/
theorem scanAssets_first (target : String) : ∀ (xs : JsonArr)
    (pre : List JsonVal) (a : JsonVal) (post : List JsonVal),
    xs.toList = pre ++ a :: post →
    (∀ b ∈ pre, linksMatch target (linksOf b) = false) →
    linksMatch target (linksOf a) = true →
    scanAssets target xs = some (resolveFoundPayload a) := by
  intro xs
  induction xs using JsonArr.cellInduction with
  | nil =>
    intro pre a post h _ _
    rw [JsonArr.toList] at h
    exact absurd h.symm (by simp)
  | cons hd t ih =>
    intro pre a post h hpre hma
    cases pre with
    | nil =>
      rw [JsonArr.toList] at h
      injection h with h1 h2
      subst h1
      simp [scanAssets, hma]
    | cons p pre' =>
      rw [JsonArr.toList, List.cons_append] at h
      injection h with h1 h2
      subst h1
      have hp := hpre hd (by simp)
      simp only [scanAssets, hp, Bool.false_eq_true, if_false]
      exact ih pre' a post h2 (fun b hb => hpre b (List.mem_cons_of_mem _ hb)) hma

/-- The asset scan finds nothing when no asset has a matching link. -/
theorem scanAssets_none (target : String) : ∀ xs : JsonArr,
    (∀ b ∈ xs.toList, linksMatch target (linksOf b) = false) →
    scanAssets target xs = none := by
  intro xs
  induction xs using JsonArr.cellInduction with
  | nil => intro _; rfl
  | cons hd t ih =>
    intro hm
    have h0 := hm hd (by rw [JsonArr.toList]; simp)
    simp only [scanAssets, h0, Bool.false_eq_true, if_false]
    exact ih (fun b hb => hm b (by rw [JsonArr.toList]; exact List.mem_cons_of_mem _ hb))

/-- The matching rule as the claim words it, modelled from the spec for
comparison with the code: both sides normalized by trimming trailing
slashes only (no whitespace stripping of the supplied URL). -/
def specC4Match (enketo_url : String) : JsonArr → Bool
  | .nil => false
  | .cons a t =>
    linksMatch (rstripSlashes enketo_url) (linksOf a) || specC4Match enketo_url t

/-- One deployed asset whose link is `http://e/f`. -/
def c4Asset0 : JsonVal :=
  JsonVal.obj (JsonObj.ofList
    [("uid", JsonVal.str "u1"), ("name", JsonVal.str "F"),
     ("deployment__links",
      JsonVal.obj (JsonObj.ofList [("url", JsonVal.str "http://e/f")]))])

/-- Environment with that one asset. -/
def c4EnvCex : ResolveEnv :=
  ⟨JsonVal.obj (JsonObj.ofList
    [("results", JsonVal.arr (JsonArr.ofList [c4Asset0]))])⟩

/-- C4 fails on the code: for the supplied URL `"http://e/f "` (trailing
space), no stored link equals it under the claim's normalization
(trimming trailing slashes on both sides), so the claim requires the
not-found error; but `resolve_form` also strips surrounding whitespace
from the supplied URL first, matches the asset, and returns the found
payload instead of the not-found error. -/
theorem C4_counterexample :
    specC4Match "http://e/f " (resultsOf c4EnvCex.resp) = false ∧
    resolve_form "http://e/f " "t" c4EnvCex =
      (.ok (dumps2 (resolveFoundPayload c4Asset0)),
       [Request.get assetsUrl [("asset_type", "survey")]]) ∧
    (resolve_form "http://e/f " "t" c4EnvCex).1 ≠
      Except.ok (dumpsC (resolveNotFoundPayload "http://e/f ")) := by
  refine ⟨by decide, by decide, by decide⟩

/-- C4 amended: with the supplied URL normalized by stripping surrounding
whitespace and then trailing slashes (and each stored link by trailing
slashes only), `resolve_form` matches whenever some string-valued link of
some asset equals the normalized target, returns the payload of the first
such asset in scan order, and returns the structured compact "not found"
error when no asset's link set contains the normalized target. -/
theorem C4_resolve_amended
    (enketo_url tok : String) (envF envN : ResolveEnv)
    (pre : List JsonVal) (a : JsonVal) (post : List JsonVal)
    (htok : tok ≠ "") (hwF : envF.wf) (hwN : envN.wf)
    (hsplit : (resultsOf envF.resp).toList = pre ++ a :: post)
    (hpre : ∀ b ∈ pre, ∀ k u, (k, JsonVal.str u) ∈ (linksOf b).toList →
      rstripSlashes u ≠ rstripSlashes (pyStrip enketo_url))
    (hmatch : ∃ k u, (k, JsonVal.str u) ∈ (linksOf a).toList ∧
      rstripSlashes u = rstripSlashes (pyStrip enketo_url))
    (hnone : ∀ b ∈ (resultsOf envN.resp).toList, ∀ k u,
      (k, JsonVal.str u) ∈ (linksOf b).toList →
      rstripSlashes u ≠ rstripSlashes (pyStrip enketo_url)) :
    resolve_form enketo_url tok envF =
      (.ok (dumps2 (resolveFoundPayload a)),
       [Request.get assetsUrl [("asset_type", "survey")]]) ∧
    resolve_form enketo_url tok envN =
      (.ok (dumpsC (resolveNotFoundPayload enketo_url)),
       [Request.get assetsUrl [("asset_type", "survey")]]) := by
  constructor
  · have hm : linksMatch (rstripSlashes (pyStrip enketo_url)) (linksOf a) =
        true := (linksMatch_iff _ _).mpr hmatch
    have hpre' : ∀ b ∈ pre,
        linksMatch (rstripSlashes (pyStrip enketo_url)) (linksOf b) = false := by
      intro b hb
      refine Bool.eq_false_iff.mpr (fun hbm => ?_)
      obtain ⟨k, u, hm2, he⟩ := (linksMatch_iff _ _).mp hbm
      exact hpre b hb k u hm2 he
    have hscan := scanAssets_first (rstripSlashes (pyStrip enketo_url))
      (resultsOf envF.resp) pre a post hsplit hpre' hm
    simp only [resolve_form, get_headers, if_neg htok, hscan]
  · have hscan := scanAssets_none (rstripSlashes (pyStrip enketo_url))
      (resultsOf envN.resp) (fun b hb => Bool.eq_false_iff.mpr (fun hbm => by
        obtain ⟨k, u, hm2, he⟩ := (linksMatch_iff _ _).mp hbm
        exact hnone b hb k u hm2 he))
    simp only [resolve_form, get_headers, if_neg htok, hscan]

/-- Asset whose link does not match the witness URL. -/
def c4Asset1 : JsonVal :=
  JsonVal.obj (JsonObj.ofList
    [("uid", JsonVal.str "uA"), ("name", JsonVal.str "Other"),
     ("deployment__links",
      JsonVal.obj (JsonObj.ofList [("url", JsonVal.str "https://ee/other")]))])

/-- Asset whose link matches the witness URL up to a trailing slash. -/
def c4Asset2 : JsonVal :=
  JsonVal.obj (JsonObj.ofList
    [("uid", JsonVal.str "uB"), ("name", JsonVal.str "Census"),
     ("deployment__links",
      JsonVal.obj (JsonObj.ofList [("url", JsonVal.str "https://ee/abc/")]))])

/-- Environment with a non-matching asset before the matching one. -/
def c4EnvF : ResolveEnv :=
  ⟨JsonVal.obj (JsonObj.ofList
    [("results", JsonVal.arr (JsonArr.ofList [c4Asset1, c4Asset2]))])⟩

/-- Environment with only the non-matching asset. -/
def c4EnvN : ResolveEnv :=
  ⟨JsonVal.obj (JsonObj.ofList
    [("results", JsonVal.arr (JsonArr.ofList [c4Asset1]))])⟩

theorem C4_resolve_amended_witness :
    resolve_form "https://ee/abc" "t" c4EnvF =
      (.ok (dumps2 (resolveFoundPayload c4Asset2)),
       [Request.get assetsUrl [("asset_type", "survey")]]) ∧
    resolve_form "https://ee/abc" "t" c4EnvN =
      (.ok (dumpsC (resolveNotFoundPayload "https://ee/abc")),
       [Request.get assetsUrl [("asset_type", "survey")]]) :=
  C4_resolve_amended "https://ee/abc" "t" c4EnvF c4EnvN
    [c4Asset1] c4Asset2 [] (by decide)
    ⟨trivial, by
      intro a ha
      rcases List.mem_cons.mp ha with rfl | ha2
      · exact ⟨trivial, Or.inr trivial⟩
      · have := List.mem_singleton.mp ha2
        subst this
        exact ⟨trivial, Or.inr trivial⟩⟩
    ⟨trivial, by
      intro a ha
      have := List.mem_singleton.mp ha
      subst this
      exact ⟨trivial, Or.inr trivial⟩⟩
    (by decide)
    (by
      intro b hb k u hm he
      have hb' := List.mem_singleton.mp hb
      subst hb'
      have hm' := List.mem_singleton.mp hm
      have h2 := congrArg Prod.snd hm'
      injection h2 with h3
      subst h3
      exact absurd he (by decide))
    ⟨"url", "https://ee/abc/", by decide, by decide⟩
    (by
      intro b hb k u hm he
      have hb' := List.mem_singleton.mp hb
      subst hb'
      have hm' := List.mem_singleton.mp hm
      have h2 := congrArg Prod.snd hm'
      injection h2 with h3
      subst h3
      exact absurd he (by decide))

/- ## Claim C8 -/

/-- Compactly serialized non-empty objects have `"` as their second
character (after `\x7b`). -/
theorem second_char_dumpsC_objCons (k : String) (v : JsonVal) (t : JsonObj) :
    (dumpsC (JsonVal.obj (JsonObj.cons k v t))).data.get? 1 = some '"' := rfl

/-- Objects serialized with `indent=2` have a newline as their second
character. -/
theorem second_char_dumps2_objCons (k : String) (v : JsonVal) (t : JsonObj) :
    (dumps2 (JsonVal.obj (JsonObj.cons k v t))).data.get? 1 = some '\n' := rfl

/-- No non-empty object serializes identically compactly and with
2-space indentation. -/
theorem dumpsC_ne_dumps2_objCons (k : String) (v : JsonVal) (t : JsonObj) :
    dumpsC (JsonVal.obj (JsonObj.cons k v t)) ≠
      dumps2 (JsonVal.obj (JsonObj.cons k v t)) := by
  intro h
  have h1 : some '"' = some '\n' := by
    calc some '"' = (dumpsC (JsonVal.obj (JsonObj.cons k v t))).data.get? 1 :=
          (second_char_dumpsC_objCons k v t).symm
      _ = (dumps2 (JsonVal.obj (JsonObj.cons k v t))).data.get? 1 := by rw [h]
      _ = some '\n' := second_char_dumps2_objCons k v t
  exact absurd h1 (by decide)

/-- C8 fails on the code: `deploy_form`'s file-not-found branch calls
`json.dumps` without `indent`, so its output is the compact string
`\x7b"error": "File not found: /x.xlsx"\x7d`, which is not the 2-space
pretty-printing of its payload (the same holds for `replace_form`'s
file-not-found branch and `resolve_form`'s not-found branch, per the
amended theorem). -/
theorem C8_counterexample :
    (deploy_form "/x.xlsx" none "t" c5EnvD).1 =
      Except.ok (dumpsC (fileNotFoundPayload "/x.xlsx")) ∧
    dumpsC (fileNotFoundPayload "/x.xlsx") ≠
      dumps2 (fileNotFoundPayload "/x.xlsx") ∧
    dumpsC (fileNotFoundPayload "/x.xlsx") =
      "\x7b\"error\": \"File not found: /x.xlsx\"\x7d" := by
  refine ⟨rfl, by decide, by decide⟩

/-- C8 amended: every output of every operation other than `info` is JSON
text pretty-printed with 2-space indentation, except three branches that
are serialized with the compact `json.dumps` default: `resolve_form`'s
not-found error and the file-not-found error of `deploy_form` and
`replace_form` (`info` still returns plain help text).  The final two
conjuncts show the compact renderings really differ from the 2-space
renderings of the same payloads. -/
theorem C8_output_format_amended
    (tok : String) (htok : tok ≠ "")
    (search : Option String) (envL : ListFormsEnv)
    (uidG : String) (envG : GetFormEnv)
    (urlF urlN : String) (envF envN : ResolveEnv) (p : JsonVal)
    (hscanF : scanAssets (rstripSlashes (pyStrip urlF))
      (resultsOf envF.resp) = some p)
    (hscanN : scanAssets (rstripSlashes (pyStrip urlN))
      (resultsOf envN.resp) = none)
    (uidX outp : String) (envX : ExportFormEnv)
    (uidS : String) (lim st : Int) (q : Option String) (envS : SubmissionsEnv)
    (fpD fpD2 : String) (fn fn2 : Option String) (envD envD2 : DeployEnv)
    (hfD : envD.fileExists = true) (hfD2 : envD2.fileExists = false)
    (uidR uidR2 fpR fpR2 : String) (envR envR2 : ReplaceEnv)
    (hfR : envR.fileExists = true) (hfR2 : envR2.fileExists = false)
    (uidE et : String) (lab : Bool) (envE : ExportDataEnv) :
    (∃ v, (list_forms search tok envL).1 = .ok (dumps2 v)) ∧
    (∃ v, (get_form uidG tok envG).1 = .ok (dumps2 v)) ∧
    (resolve_form urlF tok envF).1 = .ok (dumps2 p) ∧
    (resolve_form urlN tok envN).1 =
      .ok (dumpsC (resolveNotFoundPayload urlN)) ∧
    (∃ v, (export_form uidX outp tok envX).1 = .ok (dumps2 v)) ∧
    (∃ v, (get_submissions uidS lim st q tok envS).1 = .ok (dumps2 v)) ∧
    (∃ v, (deploy_form fpD fn tok envD).1 = .ok (dumps2 v)) ∧
    (deploy_form fpD2 fn2 tok envD2).1 =
      .ok (dumpsC (fileNotFoundPayload fpD2)) ∧
    (∃ v, (replace_form uidR fpR tok envR).1 = .ok (dumps2 v)) ∧
    (replace_form uidR2 fpR2 tok envR2).1 =
      .ok (dumpsC (fileNotFoundPayload fpR2)) ∧
    (∃ v, (export_data uidE et lab tok envE).1 = .ok (dumps2 v)) ∧
    (∀ s : String, dumpsC (fileNotFoundPayload s) ≠
      dumps2 (fileNotFoundPayload s)) ∧
    (∀ s : String, dumpsC (resolveNotFoundPayload s) ≠
      dumps2 (resolveNotFoundPayload s)) := by
  refine ⟨?_, ?_, ?_, ?_, ?_, ?_, ?_, ?_, ?_, ?_, ?_, ?_, ?_⟩
  · exact ⟨_, by simp only [list_forms, get_headers, if_neg htok]; rfl⟩
  · exact ⟨_, by simp only [get_form, get_headers, if_neg htok]; rfl⟩
  · simp only [resolve_form, get_headers, if_neg htok, hscanF]
  · simp only [resolve_form, get_headers, if_neg htok, hscanN]
  · exact ⟨_, by simp only [export_form, get_headers, if_neg htok]; rfl⟩
  · exact ⟨_, by simp only [get_submissions, get_headers, if_neg htok]; rfl⟩
  · exact ⟨_, by simp only [deploy_form, hfD, Bool.true_eq_false, if_false,
      get_headers, if_neg htok]; rfl⟩
  · simp only [deploy_form, hfD2, if_true]
  · cases hp : (pollLoop (replaceStatusUrl envR) envR.statusResp 60 0).1 with
    | complete d =>
      exact ⟨_, by simp only [replace_form, hfR, Bool.true_eq_false, if_false,
        get_headers, if_neg htok, hp]; rfl⟩
    | failed m =>
      exact ⟨_, by simp only [replace_form, hfR, Bool.true_eq_false, if_false,
        get_headers, if_neg htok, hp]; rfl⟩
    | timeout =>
      exact ⟨_, by simp only [replace_form, hfR, Bool.true_eq_false, if_false,
        get_headers, if_neg htok, hp]; rfl⟩
  · simp only [replace_form, hfR2, if_true]
  · cases hp : (pollLoop (exportStatusUrl uidE envE) envE.statusResp 30 0).1 with
    | complete d =>
      exact ⟨_, by simp only [export_data, get_headers, if_neg htok, hp]; rfl⟩
    | failed m =>
      exact ⟨_, by simp only [export_data, get_headers, if_neg htok, hp]; rfl⟩
    | timeout =>
      exact ⟨_, by simp only [export_data, get_headers, if_neg htok, hp]; rfl⟩
  · exact fun s => dumpsC_ne_dumps2_objCons "error"
      (JsonVal.str ("File not found: " ++ s)) JsonObj.nil
  · exact fun s => dumpsC_ne_dumps2_objCons "error"
      (JsonVal.str ("No form found matching Enketo URL: " ++ s)) JsonObj.nil

theorem C8_output_format_amended_witness :
    (∃ v, (list_forms none "t" c6EnvL).1 = .ok (dumps2 v)) ∧
    (∃ v, (get_form "aB12" "t" ⟨JsonVal.null⟩).1 = .ok (dumps2 v)) ∧
    (resolve_form "https://ee/abc" "t" c4EnvF).1 =
      .ok (dumps2 (resolveFoundPayload c4Asset2)) ∧
    (resolve_form "https://ee/abc" "t" c4EnvN).1 =
      .ok (dumpsC (resolveNotFoundPayload "https://ee/abc")) ∧
    (∃ v, (export_form "aB12" "/tmp/o.xlsx" "t" ⟨JsonVal.null⟩).1 =
      .ok (dumps2 v)) ∧
    (∃ v, (get_submissions "aB12" 100 0 none "t" ⟨JsonVal.null⟩).1 =
      .ok (dumps2 v)) ∧
    (∃ v, (deploy_form "/tmp/f.xlsx" none "t" c10Env).1 = .ok (dumps2 v)) ∧
    (deploy_form "/no/such.xlsx" none "t" c5EnvD).1 =
      .ok (dumpsC (fileNotFoundPayload "/no/such.xlsx")) ∧
    (∃ v, (replace_form "aB12" "/tmp/f.xlsx" "t" c1EnvRC).1 =
      .ok (dumps2 v)) ∧
    (replace_form "aB12" "/no/such.xlsx" "t" c5EnvR).1 =
      .ok (dumpsC (fileNotFoundPayload "/no/such.xlsx")) ∧
    (∃ v, (export_data "aB12" "csv" true "t" c1EnvEC).1 = .ok (dumps2 v)) ∧
    (∀ s : String, dumpsC (fileNotFoundPayload s) ≠
      dumps2 (fileNotFoundPayload s)) ∧
    (∀ s : String, dumpsC (resolveNotFoundPayload s) ≠
      dumps2 (resolveNotFoundPayload s)) :=
  C8_output_format_amended "t" (by decide) none c6EnvL "aB12" ⟨JsonVal.null⟩
    "https://ee/abc" "https://ee/abc" c4EnvF c4EnvN
    (resolveFoundPayload c4Asset2) (by decide) (by decide)
    "aB12" "/tmp/o.xlsx" ⟨JsonVal.null⟩ "aB12" 100 0 none ⟨JsonVal.null⟩
    "/tmp/f.xlsx" "/no/such.xlsx" none none c10Env c5EnvD rfl rfl
    "aB12" "aB12" "/tmp/f.xlsx" "/no/such.xlsx" c1EnvRC c5EnvR rfl rfl
    "aB12" "csv" true c1EnvEC
